import Mathlib

/-!
# Telegram Desktop main window and inline-bot send data

A shallow embedding of parts of `Telegram/SourceFiles/mainwindow.cpp` and
`Telegram/SourceFiles/inline_bots/inline_bot_send_data.cpp`, followed by
theorems about the embedded functions.

Conventions: C++ `int` values are `Int`; a widget pointer member
(`object_ptr`, `unique_qptr`) is an `Option`, `none` standing for the null
pointer; calls on objects whose classes live outside these two files are
recorded, in order, in a list of effects.
-/

set_option autoImplicit false

namespace Qt

/-- The value of `Qt::Key_F6` in the Qt key enumeration (`Key_F1 = 0x01000030`). -/
def Key_F6 : Int := 0x01000035

/-- The value of `Qt::Key_F7` in the Qt key enumeration. -/
def Key_F7 : Int := 0x01000036

/-- The value of `Qt::Key_F8` in the Qt key enumeration. -/
def Key_F8 : Int := 0x01000037

end Qt

/-! ## `FeedLangTestingKey` (mainwindow.cpp, lines 65-80) -/

/-- One call of `FeedLangTestingKey(key)`. The function-local static
`codeState` is passed in and returned; the boolean component tells whether
`Lang::CurrentCloudManager().switchToTestLanguage()` was called. -/
def FeedLangTestingKey (codeState : Int) (key : Int) : Int × Bool :=
  let codeState :=
    if (codeState == 0 && key == Qt.Key_F7)
        || (codeState == 1 && key == Qt.Key_F6)
        || (codeState == 2 && key == Qt.Key_F7)
        || (codeState == 3 && key == Qt.Key_F8) then
      codeState + 1
    else
      0
  if codeState == 4 then (0, true) else (codeState, false)

/-- Feeding a sequence of keys, one call per key, starting with the given
value of `codeState`: the final `codeState` and, per call, whether that call
switched to the test language. -/
def feedKeys (codeState : Int) : List Int → Int × List Bool
  | [] => (codeState, [])
  | key :: rest =>
    let r := FeedLangTestingKey codeState key
    let tail := feedKeys r.1 rest
    (tail.1, r.2 :: tail.2)

/-- The initial value of the static `codeState`. -/
def initialCodeState : Int := 0

/-- Whether the last call of a run from the initial state switched to the
test language (`false` for the empty run). -/
def lastCallSwitches (keys : List Int) : Bool :=
  (feedKeys initialCodeState keys).2.getLast?.getD false

/-- The `QEvent::KeyPress` case of `MainWindow::eventFilter` (lines 644-651):
the key reaches `FeedLangTestingKey` only with debug logging enabled and the
event addressed to the window handle. -/
def eventFilterKeyPress (debugEnabled : Bool) (objectIsWindowHandle : Bool)
    (codeState : Int) (key : Int) : Int × Bool :=
  if debugEnabled && objectIsWindowHandle then
    FeedLangTestingKey codeState key
  else
    (codeState, false)

/-! ## Counter badges (mainwindow.cpp, lines 853-967) -/

/-- A `style::color`; the palette lives outside the excerpt, a colour is
identified by a number. -/
abbrev Color := Nat

/-- A `QRect`: left, top, width, height. -/
structure QRect where
  x : Int
  y : Int
  width : Int
  height : Int
deriving DecidableEq, Repr

/-- The metrics of a `style::font` of a given pixel size, as used by the
badge painters: `f->width(text)`, `f->height` and `f->ascent`. The font
classes live outside the excerpt, so the metrics are a parameter. -/
structure FontMetrics where
  width : Int → String → Int
  height : Int → Int
  ascent : Int → Int

/-- The call `QString("%1").arg(value)`: the decimal representation of an `int`. -/
def argInt (value : Int) : String := toString value

/-- The call `QString("%1").arg(value, fieldWidth, 10, fillChar)`: the decimal
representation, padded on the left with `fillChar` up to `fieldWidth`
characters. -/
def argIntPadded (value : Int) (fieldWidth : Nat) (fillChar : Char) : String :=
  let digits := toString value
  String.mk (List.replicate (fieldWidth - digits.length) fillChar) ++ digits

/-- The counter text `cnt` of the layer-mode badge (line 902); `%` is the
truncating remainder of C++. -/
def layerCounterText (count : Int) : String :=
  if count < 1000 then argInt count
  else ".." ++ argIntPadded (Int.tmod count 100) 2 '0'

/-- The `fontSize` chosen in layer mode (lines 911-920). -/
def layerFontSize (size : Int) (cntSize : Int) : Int :=
  if size == 16 then
    (if cntSize < 2 then 11 else if cntSize < 3 then 11 else 8)
  else if size == 20 then
    (if cntSize < 2 then 14 else if cntSize < 3 then 13 else 10)
  else if size == 24 then
    (if cntSize < 2 then 17 else if cntSize < 3 then 16 else 12)
  else
    (if cntSize < 2 then 22 else if cntSize < 3 then 20 else 16)

/-- The padding `d` chosen in layer mode (lines 923-935). -/
def layerPadding (size : Int) (cntSize : Int) : Int :=
  if size == 16 then
    (if cntSize < 2 then 5 else if cntSize < 3 then 2 else 1)
  else if size == 20 then
    (if cntSize < 2 then 6 else if cntSize < 3 then 2 else 1)
  else if size == 24 then
    (if cntSize < 2 then 7 else if cntSize < 3 then 3 else 1)
  else
    (if cntSize < 2 then 9 else if cntSize < 3 then 4 else 2)

/-- The corner radius `r` chosen in layer mode (lines 923-935). -/
def layerRadius (size : Int) (cntSize : Int) : Int :=
  if size == 16 then
    (if cntSize < 2 then 8 else if cntSize < 3 then 7 else 3)
  else if size == 20 then
    (if cntSize < 2 then 10 else if cntSize < 3 then 9 else 5)
  else if size == 24 then
    (if cntSize < 2 then 12 else if cntSize < 3 then 11 else 6)
  else
    (if cntSize < 2 then 16 else if cntSize < 3 then 14 else 8)

/-- What a badge painter draws: the brush and pen colours, the font size, the
padding and radius, the rounded rectangle and the text with its position. -/
structure BadgeDrawing where
  brush : Color
  pen : Color
  cnt : String
  fontSize : Int
  d : Int
  r : Int
  roundedRect : QRect
  textX : Int
  textY : Int
deriving DecidableEq, Repr

/-- The image returned by `iconWithCounter` in layer mode: a transparent
square of side `size` with the badge drawn on it. -/
structure LayerImage where
  size : Int
  badge : BadgeDrawing
deriving DecidableEq, Repr

/-- The layer branch of `iconWithCounter` (lines 897-943), entered with `size`
already negated to a positive value. -/
def iconWithCounterLayer (fm : FontMetrics) (size : Int) (count : Int)
    (bg fg : Color) : LayerImage :=
  let size := if size != 16 && size != 20 && size != 24 then 32 else size
  let cnt := layerCounterText count
  let cntSize : Int := cnt.length
  let fontSize := layerFontSize size cntSize
  let w := fm.width fontSize cnt
  let d := layerPadding size cntSize
  let r := layerRadius size cntSize
  { size := size
    badge :=
      { brush := bg
        pen := fg
        cnt := cnt
        fontSize := fontSize
        d := d
        r := r
        roundedRect :=
          { x := size - w - d * 2
            y := size - fm.height fontSize
            width := w + d * 2
            height := fm.height fontSize }
        textX := size - w - d
        textY := size - fm.height fontSize + fm.ascent fontSize } }

/-- The painting done by `placeSmallCounter` (lines 853-889) on an image. -/
def placeSmallCounter (fm : FontMetrics) (size : Int) (count : Int) (bg : Color)
    (shift : Int × Int) (color : Color) : BadgeDrawing :=
  let cnt :=
    if count < 100 then argInt count
    else ".." ++ argIntPadded (Int.tmod count 10) 1 '0'
  let cntSize : Int := cnt.length
  let fontSize : Int :=
    if size == 16 then 8
    else if size == 32 then (if cntSize < 2 then 12 else 12)
    else (if cntSize < 2 then 22 else 22)
  let w := fm.width fontSize cnt
  let d : Int :=
    if size == 16 then (if cntSize < 2 then 2 else 1)
    else if size == 32 then (if cntSize < 2 then 5 else 2)
    else (if cntSize < 2 then 9 else 4)
  let r : Int :=
    if size == 16 then (if cntSize < 2 then 4 else 3)
    else if size == 32 then (if cntSize < 2 then 8 else 7)
    else (if cntSize < 2 then 16 else 14)
  { brush := bg
    pen := color
    cnt := cnt
    fontSize := fontSize
    d := d
    r := r
    roundedRect :=
      { x := shift.1 + size - w - d * 2
        y := shift.2 + size - fm.height fontSize
        width := w + d * 2
        height := fm.height fontSize }
    textX := shift.1 + size - w - d
    textY := shift.2 + size - fm.height fontSize + fm.ascent fontSize }

/-- What is painted over the application icon when the count is not zero. -/
inductive CounterOverlay
  | small (drawing : BadgeDrawing)
  | pixmap (x y : Int) (image : LayerImage)
deriving DecidableEq, Repr

/-- The image returned by `iconWithCounter` outside layer mode: a copy of the
logo of side `size` (`icon16/32/64`, or `iconbig16/32/64` when `big`),
converted to black in support mode, with the counter painted over it. -/
structure IconImage where
  size : Int
  big : Bool
  black : Bool
  overlay : Option CounterOverlay
deriving DecidableEq, Repr

/-- The result of `iconWithCounter`. -/
inductive CounterIcon
  | layer (image : LayerImage)
  | icon (image : IconImage)
deriving DecidableEq, Repr

/-- Embedding of `MainWindow::iconWithCounter` (lines 891-967). `supportMode` tells whether
a session controller exists whose session is in support mode. The nested call
`iconWithCounter(-size / 2, count, bg, fg, false)` is made with `size` one of
16, 32, 64, so its argument is negative and it runs the layer branch on
`-(-size / 2)`. -/
def iconWithCounter (fm : FontMetrics) (supportMode : Bool) (size : Int)
    (count : Int) (bg fg : Color) (smallIcon : Bool) : CounterIcon :=
  if size < 0 then
    .layer (iconWithCounterLayer fm (-size) count bg fg)
  else
    let size := if size != 16 && size != 32 then 64 else size
    let img : IconImage :=
      { size := size, big := smallIcon, black := supportMode, overlay := none }
    if count == 0 then .icon img
    else if smallIcon then
      .icon { img with
        overlay := some (.small (placeSmallCounter fm size count bg (0, 0) fg)) }
    else
      .icon { img with
        overlay := some (.pixmap (Int.tdiv size 2) (Int.tdiv size 2)
          (iconWithCounterLayer fm (-(Int.tdiv (-size) 2)) count bg fg)) }

/-! ## The window and its child widgets (mainwindow.cpp, lines 240-475, 628-640, 710-715, 825-851) -/

namespace anim

/-- The animation type `anim::type`. -/
inductive type
  | normal
  | instant
deriving DecidableEq, Repr

end anim

/-- The pixmap returned by `grabInner`: the widget it was grabbed from, or the
empty `QPixmap`. -/
inductive Grabbed
  | nothing
  | passcodeLock
  | intro
  | main
deriving DecidableEq, Repr

/-- A layer widget handed to the layer stack: the settings layer built by
`showSettings`, or one supplied by a caller. -/
inductive LayerWidget
  | settings
  | other (id : Nat)
deriving DecidableEq, Repr

/-- A method call made by the window on one of its child widgets. The widget
classes live outside the excerpt, so a call is recorded, not interpreted. -/
inductive WidgetCall
  | hide
  | show
  | raise
  | setFocus
  | setGeometry (rect : QRect)
  | showAnimated (bg : Grabbed) (back : Bool)
  | showFinished
  | setInnerFocus
  | activate
  | checkMainSectionToLayer
  | showSpecialLayer (layer : LayerWidget) (animated : anim.type)
  | hideSpecialLayer (animated : anim.type)
  | showMainMenu (animated : anim.type)
  | hideAll (animated : anim.type)
  | hideAllAnimatedPrepare
  | hideAllAnimatedRun
deriving DecidableEq, Repr

/-- A live child widget: the calls it has received since it was created,
oldest first. -/
abbrev Widget := List WidgetCall

/-- A call made by the window on an object that is not one of its child
widgets (the application, the session controller, the base class). -/
inductive Effect
  | hideMediaView
  | checkStartUrl
  | showFromTray
  | sessionShowSettings
  | windowSetFocus
  | enableGifPauseReason
  | disableGifPauseReason
  | queueCheckHistoryActivation
  | baseUpdateControlsGeometry
  | showInformBox
deriving DecidableEq, Repr

/-- The session controller as far as the window reads it. -/
structure SessionController where
  filtersWidth : Int
  supportMode : Bool
deriving DecidableEq, Repr

/-- What the window reads from outside itself during one operation. -/
structure Env where
  /-- The result of `sessionController()`, `none` for a null pointer. -/
  sessionController : Option SessionController
  /-- The result of `Core::App().passcodeLocked()`. -/
  passcodeLocked : Bool
  /-- The result of `account().sessionExists()`. -/
  sessionExists : Bool
  /-- The result of `isHidden()`. -/
  isHidden : Bool
  /-- The result of `bodyWidget()->rect()`. -/
  body : QRect
  /-- The result of `_layer->canSetFocus()`. -/
  layerCanSetFocus : Bool
  /-- The result of `Ui::InFocusChain(layer)` in `destroyLayer`. -/
  layerInFocusChain : Bool
  /-- Whether `App::wnd()` is this window, so that the facade call
  `Ui::hideSettingsAndLayer` reaches its `ui_hideSettingsAndLayer`. -/
  isAppWindow : Bool
  /-- Whether the base-class part of `clearWidgets`, which is outside the
  excerpt, removes the layer stack before it calls `clearWidgetsHook`. -/
  clearWidgetsDropsLayer : Bool
deriving DecidableEq, Repr

/-- The widget members of `MainWindow` and the record of the calls it made on
other objects. -/
structure MainWindow where
  _main : Option Widget
  _intro : Option Widget
  _passcodeLock : Option Widget
  _layer : Option Widget
  _mediaPreview : Option Widget
  _testingThemeWarning : Option Widget
  effects : List Effect
deriving DecidableEq, Repr

namespace MainWindow

/-- The window right after construction: no child widget exists. -/
def initial : MainWindow :=
  { _main := none, _intro := none, _passcodeLock := none, _layer := none
    _mediaPreview := none, _testingThemeWarning := none, effects := [] }

/-- Record a call on a widget member, if the widget exists. -/
def call (widget : Option Widget) (c : WidgetCall) : Option Widget :=
  widget.map (fun calls => calls ++ [c])

/-- Record a call on an outside object. -/
def emit (w : MainWindow) (e : Effect) : MainWindow :=
  { w with effects := w.effects ++ [e] }

/-- Embedding of `MainWindow::grabInner` (lines 249-258). -/
def grabInner (w : MainWindow) : Grabbed :=
  if w._passcodeLock.isSome then .passcodeLock
  else if w._intro.isSome then .intro
  else if w._main.isSome then .main
  else .nothing

/-- Embedding of `MainWindow::updateControlsGeometry` (lines 825-851). -/
def updateControlsGeometry (env : Env) (w : MainWindow) : MainWindow :=
  let w := w.emit .baseUpdateControlsGeometry
  let body := env.body
  let w := { w with _passcodeLock := call w._passcodeLock (.setGeometry body) }
  let mainLeft : Int := 0
  let mainWidth : Int := body.width
  let (mainLeft, mainWidth) :=
    match env.sessionController with
    | some session =>
      if session.filtersWidth != 0 then
        (mainLeft + session.filtersWidth, mainWidth - session.filtersWidth)
      else (mainLeft, mainWidth)
    | none => (mainLeft, mainWidth)
  let w := { w with
    _main := call w._main (.setGeometry
      { x := body.x + mainLeft, y := body.y, width := mainWidth, height := body.height }) }
  let w := { w with _intro := call w._intro (.setGeometry body) }
  let w := { w with _layer := call w._layer (.setGeometry body) }
  let w := { w with _mediaPreview := call w._mediaPreview (.setGeometry body) }
  let w := { w with
    _testingThemeWarning := call w._testingThemeWarning (.setGeometry body) }
  { w with _main := call w._main .checkMainSectionToLayer }

/-- Embedding of `MainWindow::setInnerFocus` (lines 628-640). -/
def setInnerFocus (env : Env) (w : MainWindow) : MainWindow :=
  if w._testingThemeWarning.isSome then
    { w with _testingThemeWarning := call w._testingThemeWarning .setFocus }
  else if w._layer.isSome && env.layerCanSetFocus then
    { w with _layer := call w._layer .setInnerFocus }
  else if w._passcodeLock.isSome then
    { w with _passcodeLock := call w._passcodeLock .setInnerFocus }
  else if w._main.isSome then
    { w with _main := call w._main .setInnerFocus }
  else if w._intro.isSome then
    { w with _intro := call w._intro .setInnerFocus }
  else w

/-- Embedding of `MainWindow::fixOrder` (lines 710-715). -/
def fixOrder (w : MainWindow) : MainWindow :=
  { w with
    _passcodeLock := call w._passcodeLock .raise
    _layer := call w._layer .raise
    _mediaPreview := call w._mediaPreview .raise
    _testingThemeWarning := call w._testingThemeWarning .raise }

/-- Embedding of `MainWindow::ensureLayerCreated` (lines 426-443). -/
def ensureLayerCreated (env : Env) (w : MainWindow) : MainWindow :=
  if w._layer.isSome then w
  else
    let w := { w with _layer := some [] }
    if env.sessionController.isSome then w.emit .enableGifPauseReason else w

/-- Embedding of `MainWindow::destroyLayer` (lines 445-466). -/
def destroyLayer (env : Env) (w : MainWindow) : MainWindow :=
  if !w._layer.isSome then w
  else
    let w := { w with _layer := none }
    let resetFocus := env.layerInFocusChain
    let w := if resetFocus then w.emit .windowSetFocus else w
    let w := if env.sessionController.isSome then w.emit .disableGifPauseReason else w
    let w := if resetFocus then setInnerFocus env w else w
    w.emit .queueCheckHistoryActivation

/-- Embedding of `MainWindow::ui_hideSettingsAndLayer` (lines 468-474). -/
def ui_hideSettingsAndLayer (env : Env) (animated : anim.type) (w : MainWindow) :
    MainWindow :=
  if animated == .instant then destroyLayer env w
  else { w with _layer := call w._layer (.hideAll animated) }

/-- The facade call `Ui::hideSettingsAndLayer(animated)`: it forwards to
`ui_hideSettingsAndLayer` of the window `App::wnd()`. -/
def hideSettingsAndLayer (env : Env) (animated : anim.type) (w : MainWindow) :
    MainWindow :=
  if env.isAppWindow then ui_hideSettingsAndLayer env animated w else w

/-- Embedding of `MainWindow::clearWidgetsHook` (lines 240-247). -/
def clearWidgetsHook (env : Env) (w : MainWindow) : MainWindow :=
  let w := { w with _mediaPreview := none }
  let w := { w with _main := none }
  let w := { w with _intro := none }
  if !env.passcodeLocked then { w with _passcodeLock := none } else w

/-- The base-class method `clearWidgets`, which is outside the excerpt: it
calls the hook `clearWidgetsHook`; what it does to the layer stack before that
is read from the environment. -/
def clearWidgets (env : Env) (w : MainWindow) : MainWindow :=
  clearWidgetsHook env (if env.clearWidgetsDropsLayer then destroyLayer env w else w)

end MainWindow

/-- A failed contract check: `Expects(...)` or `Assert(...)` terminates the
program. -/
inductive Failure
  | expectsSessionExists
  | assertNotAnimated
deriving DecidableEq, Repr

namespace MainWindow

/-- Embedding of `MainWindow::setupPasscodeLock` (lines 267-287). -/
def setupPasscodeLock (env : Env) (w : MainWindow) : MainWindow :=
  let animated := w._main.isSome || w._intro.isSome
  let bg := if animated then grabInner w else .nothing
  let w := { w with _passcodeLock := some [] }
  let w := updateControlsGeometry env w
  let w := w.emit .hideMediaView
  let w := hideSettingsAndLayer env .instant w
  let w := { w with _main := call w._main .hide }
  let w := { w with _intro := call w._intro .hide }
  if animated then
    { w with _passcodeLock := call w._passcodeLock (.showAnimated bg false) }
  else
    let w := { w with _passcodeLock := call w._passcodeLock .showFinished }
    setInnerFocus env w

/-- Embedding of `MainWindow::clearPasscodeLock` (lines 289-308). -/
def clearPasscodeLock (env : Env) (w : MainWindow) : MainWindow :=
  if !w._passcodeLock.isSome then w
  else if w._intro.isSome then
    let bg := grabInner w
    let w := { w with _passcodeLock := none }
    let w := { w with _intro := call w._intro .show }
    let w := updateControlsGeometry env w
    { w with _intro := call w._intro (.showAnimated bg true) }
  else if w._main.isSome then
    let bg := grabInner w
    let w := { w with _passcodeLock := none }
    let w := { w with _main := call w._main .show }
    let w := updateControlsGeometry env w
    let w := { w with _main := call w._main (.showAnimated bg true) }
    w.emit .checkStartUrl
  else w

/-- Embedding of `MainWindow::setupIntro` (lines 310-339). -/
def setupIntro (env : Env) (w : MainWindow) : MainWindow :=
  let animated := w._main.isSome || w._passcodeLock.isSome
  let bg := if animated then grabInner w else .nothing
  let w := destroyLayer env w
  let created : Widget := []
  let w := clearWidgets env w
  let w := { w with _intro := some created }
  let w :=
    if w._passcodeLock.isSome then
      { w with _intro := call w._intro .hide }
    else
      let w := { w with _intro := call w._intro .show }
      let w := updateControlsGeometry env w
      if animated then
        { w with _intro := call w._intro (.showAnimated bg false) }
      else
        setInnerFocus env w
  fixOrder w

/-- Embedding of `MainWindow::setupMain` (lines 341-375). The weak pointer
`weakAnimatedLayer` is non-null at the end when it was set and the layer stack
it points to still exists. -/
def setupMain (env : Env) (w : MainWindow) : Except Failure MainWindow :=
  if !env.sessionExists then .error .expectsSessionExists
  else
    let animated := w._intro.isSome
      || (w._passcodeLock.isSome && !env.passcodeLocked)
    let bg := if animated then grabInner w else .nothing
    let weakAnimatedLayer :=
      w._main.isSome && w._layer.isSome && !w._passcodeLock.isSome
    if weakAnimatedLayer && animated then .error .assertNotAnimated
    else
      let w :=
        if weakAnimatedLayer then
          { w with _layer := call w._layer .hideAllAnimatedPrepare }
        else destroyLayer env w
      let created : Widget := []
      let w := clearWidgets env w
      let w := { w with _main := some created }
      let w :=
        if w._passcodeLock.isSome then
          { w with _main := call w._main .hide }
        else
          let w := { w with _main := call w._main .show }
          let w := updateControlsGeometry env w
          let w :=
            if animated then
              { w with _main := call w._main (.showAnimated bg false) }
            else
              { w with _main := call w._main .activate }
          w.emit .checkStartUrl
      let w := fixOrder w
      .ok (if weakAnimatedLayer then
          { w with _layer := call w._layer .hideAllAnimatedRun }
        else w)

/-- Embedding of `MainWindow::showSpecialLayer` (lines 391-404); `layer` is `none` for a
null `object_ptr`. -/
def showSpecialLayer (env : Env) (layer : Option LayerWidget)
    (animated : anim.type) (w : MainWindow) : MainWindow :=
  if w._passcodeLock.isSome then w
  else
    match layer with
    | some l =>
      let w := ensureLayerCreated env w
      { w with _layer := call w._layer (.showSpecialLayer l animated) }
    | none =>
      if w._layer.isSome then
        { w with _layer := call w._layer (.hideSpecialLayer animated) }
      else w

/-- Embedding of `MainWindow::showSettings` (lines 377-389). -/
def showSettings (env : Env) (w : MainWindow) : MainWindow :=
  if w._passcodeLock.isSome then w
  else if env.sessionController.isSome then w.emit .sessionShowSettings
  else showSpecialLayer env (some .settings) .normal w

/-- Embedding of `MainWindow::showMainMenu` (lines 415-424). -/
def showMainMenu (env : Env) (w : MainWindow) : MainWindow :=
  if w._passcodeLock.isSome then w
  else
    let w := if env.isHidden then w.emit .showFromTray else w
    let w := ensureLayerCreated env w
    { w with _layer := call w._layer (.showMainMenu .normal) }

end MainWindow

/-- The window operations whose interleavings are considered. -/
inductive WindowOp
  | setupIntro
  | setupMain
  | setupPasscodeLock
  | clearPasscodeLock
  | clearWidgets
  | ensureLayerCreated
  | destroyLayer
deriving DecidableEq, Repr

/-- One operation, run in the environment it finds. -/
def WindowOp.apply (op : WindowOp) (env : Env) (w : MainWindow) :
    Except Failure MainWindow :=
  match op with
  | .setupIntro => .ok (w.setupIntro env)
  | .setupMain => w.setupMain env
  | .setupPasscodeLock => .ok (w.setupPasscodeLock env)
  | .clearPasscodeLock => .ok (w.clearPasscodeLock env)
  | .clearWidgets => .ok (w.clearWidgets env)
  | .ensureLayerCreated => .ok (w.ensureLayerCreated env)
  | .destroyLayer => .ok (w.destroyLayer env)

/-- A sequence of operations, each with its environment, run in order; it
stops at the first failed contract check. -/
def runOps : List (Env × WindowOp) → MainWindow → Except Failure MainWindow
  | [], w => .ok w
  | (env, op) :: rest, w =>
    match op.apply env w with
    | .ok w' => runOps rest w'
    | .error f => .error f

/-! ## `toggleDisplayNotifyFromTray` (mainwindow.cpp, lines 747-800) -/

/-- The notification fields of `Core::Settings` read and written by the tray
toggle. -/
structure NotifySettings where
  desktopNotify : Bool
  soundNotify : Bool
  flashBounceNotify : Bool
  rememberedSoundNotifyFromTray : Bool
  rememberedFlashBounceNotifyFromTray : Bool
deriving DecidableEq, Repr

/-- The argument of `notifySettingsChanged`, as far as the toggle uses it. -/
inductive ChangeType
  | DesktopEnabled
  | SoundEnabled
  | FlashBounceEnabled
deriving DecidableEq, Repr

/-- The outcome of one call of `toggleDisplayNotifyFromTray`: the settings
after it, whether `saveSettings()` was called, the `notifySettingsChanged`
calls in order, and the other calls made. -/
structure ToggleOutcome where
  settings : NotifySettings
  saved : Bool
  notified : List ChangeType
  effects : List Effect
deriving DecidableEq, Repr

/-- Embedding of `MainWindow::toggleDisplayNotifyFromTray`. `locked` is
`controller().locked()`, `hasSession` tells whether `sessionController()` is
non-null, `isActive` is `isActive()`. -/
def toggleDisplayNotifyFromTray (locked hasSession isActive : Bool)
    (settings : NotifySettings) : ToggleOutcome :=
  if locked then
    { settings := settings
      saved := false
      notified := []
      effects := (if !isActive then [Effect.showFromTray] else []) ++ [.showInformBox] }
  else if !hasSession then
    { settings := settings, saved := false, notified := [], effects := [] }
  else
    let soundNotifyChanged := false
    let flashBounceNotifyChanged := false
    let settings := { settings with desktopNotify := !settings.desktopNotify }
    let (settings, soundNotifyChanged, flashBounceNotifyChanged) :=
      if settings.desktopNotify then
        let (settings, soundNotifyChanged) :=
          if settings.rememberedSoundNotifyFromTray && !settings.soundNotify then
            ({ settings with
                soundNotify := true
                rememberedSoundNotifyFromTray := false }, true)
          else (settings, soundNotifyChanged)
        let (settings, flashBounceNotifyChanged) :=
          if settings.rememberedFlashBounceNotifyFromTray
              && !settings.flashBounceNotify then
            ({ settings with
                flashBounceNotify := true
                rememberedFlashBounceNotifyFromTray := false }, true)
          else (settings, flashBounceNotifyChanged)
        (settings, soundNotifyChanged, flashBounceNotifyChanged)
      else
        let (settings, soundNotifyChanged) :=
          if settings.soundNotify then
            ({ settings with
                soundNotify := false
                rememberedSoundNotifyFromTray := true }, true)
          else
            ({ settings with rememberedSoundNotifyFromTray := false },
              soundNotifyChanged)
        let (settings, flashBounceNotifyChanged) :=
          if settings.flashBounceNotify then
            ({ settings with
                flashBounceNotify := false
                rememberedFlashBounceNotifyFromTray := true }, true)
          else
            ({ settings with rememberedFlashBounceNotifyFromTray := false },
              flashBounceNotifyChanged)
        (settings, soundNotifyChanged, flashBounceNotifyChanged)
    { settings := settings
      saved := true
      notified := [ChangeType.DesktopEnabled]
        ++ (if soundNotifyChanged then [ChangeType.SoundEnabled] else [])
        ++ (if flashBounceNotifyChanged then [ChangeType.FlashBounceEnabled] else [])
      effects := [] }

/-! ## Inline bot send data (inline_bot_send_data.cpp) -/

/-- The chat restrictions asked about in this file. -/
inductive ChatRestriction
  | SendMessages
  | SendMedia
  | SendStickers
  | SendGifs
  | SendGames
deriving DecidableEq, Repr

/-- The sticker data of a document, as far as this file reads it: only
whether the pointer is null. -/
structure StickerData where
deriving DecidableEq, Repr

/-- The properties of `DocumentData` read by `SendFile::getErrorOnSend`:
`sticker()` (`none` for a null pointer), `isAnimation()`,
`isVideoMessage()`. -/
structure DocumentData where
  sticker : Option StickerData
  isAnimation : Bool
  isVideoMessage : Bool
deriving DecidableEq, Repr

/-- Embedding of `SendFile::getErrorOnSend` (lines 210-231). `restrictionError r` is the
result of `Data::RestrictionError(history->peer, r)`, an optional string. -/
def SendFile.getErrorOnSend (restrictionError : ChatRestriction → Option String)
    (_document : DocumentData) : String :=
  let errorMedia := restrictionError .SendMedia
  let errorStickers := restrictionError .SendStickers
  let errorGifs := restrictionError .SendGifs
  match errorMedia with
  | some e => e
  | none =>
    if errorStickers.isSome && _document.sticker != none then
      errorStickers.getD ""
    else if errorGifs.isSome && _document.isAnimation
        && !_document.isVideoMessage then
      errorGifs.getD ""
    else ""

/-- The order in which the restrictions are tried, as the description of
`SendFile::getErrorOnSend` words it: each restriction with the condition on
the document under which its error applies. -/
def SendFile.restrictionOrder (document : DocumentData) :
    List (ChatRestriction × Bool) :=
  [ (.SendMedia, true),
    (.SendStickers, document.sticker.isSome),
    (.SendGifs, document.isAnimation && !document.isVideoMessage) ]

/-- The first applicable restriction error of a list of candidates, the empty
string when there is none: a candidate applies when its error exists and its
condition on the document holds. -/
def firstApplicableError (restrictionError : ChatRestriction → Option String) :
    List (ChatRestriction × Bool) → String
  | [] => ""
  | (r, applies) :: rest =>
    match restrictionError r, applies with
    | some e, true => e
    | _, _ => firstApplicableError restrictionError rest

/-- A message entity, identified by a number; the entity types live outside
the excerpt. -/
abbrev MTPMessageEntity := Nat

/-- The message media built in this file. -/
inductive MTPMessageMedia
  | messageMediaEmpty
  | messageMediaGeo (geo : Int × Int)
  | messageMediaGeoLive (flags : Nat) (geo : Int × Int) (heading : Int)
      (period : Int) (proximityNotificationRadius : Int)
  | messageMediaVenue (geo : Int × Int) (title address provider venueId venueType : String)
  | messageMediaContact (phoneNumber firstName lastName vcard : String) (userId : Int)
  | other (id : Nat)
deriving DecidableEq, Repr

/-- The type `SendDataCommon::SentMTPMessageFields`. -/
structure SentMTPMessageFields where
  text : String := ""
  entities : List MTPMessageEntity := []
  media : MTPMessageMedia := .messageMediaEmpty
deriving DecidableEq, Repr

/-- The type `Api::SendAction`, as far as `addToHistory` sets it: the history it is
built for (by its peer) and `replyTo`. -/
structure SendAction where
  historyPeer : Int
  replyTo : Int
deriving DecidableEq, Repr

/-- The reply header `NewMessageReplyHeader(action)`; the function lives
outside the excerpt, the header is identified by the action it is built
from. -/
structure MTPMessageReplyHeader where
  action : SendAction
deriving DecidableEq, Repr

/-- The arguments given to `MTP_message` in `addToHistory`; the arguments
that are default-constructed there (forward header, replies, edit date,
grouped id, restriction reasons, ttl period) carry no data. -/
structure MTPMessage where
  flags : Nat
  id : Int
  fromId : Int
  peerId : Int
  viaBotId : Int
  replyHeader : MTPMessageReplyHeader
  date : Int
  message : String
  media : MTPMessageMedia
  replyMarkup : Nat
  entities : List MTPMessageEntity
  views : Int
  forwards : Int
  postAuthor : String
deriving DecidableEq, Repr

/-- The argument `NewMessageType` of `History::addNewMessage`. -/
inductive NewMessageType
  | Unread
  | Last
  | Existing
deriving DecidableEq, Repr

/-- One call of `History::addNewMessage`. -/
structure AddedMessage where
  message : MTPMessage
  clientFlags : Nat
  type : NewMessageType
deriving DecidableEq, Repr

/-- A history: its peer and the `addNewMessage` calls it received, oldest
first. -/
structure History where
  peer : Int
  added : List AddedMessage
deriving DecidableEq, Repr

/-- Embedding of `SendDataCommon::addToHistory` (lines 31-80). `fields` is the result of the
virtual `getSentMessageFields()`; `f_entities` and `f_reply_to` are the bit
masks `MTPDmessage::Flag::f_entities` and `MTPDmessage::Flag::f_reply_to`,
whose values come from the generated scheme outside the excerpt. -/
def SendDataCommon.addToHistory (f_entities f_reply_to : Nat)
    (fields : SentMTPMessageFields) (history : History) (flags : Nat)
    (clientFlags : Nat) (msgId : Int) (fromId : Int) (mtpDate : Int)
    (viaBotId : Int) (replyToId : Int) (postAuthor : String) (markup : Nat) :
    History :=
  let flags := if !fields.entities.isEmpty then flags ||| f_entities else flags
  let action : SendAction := { historyPeer := history.peer, replyTo := replyToId }
  let replyHeader : MTPMessageReplyHeader := { action := action }
  let flags := if replyToId != 0 then flags ||| f_reply_to else flags
  let views : Int := 1
  let forwards : Int := 0
  { history with
    added := history.added ++
      [{ message :=
          { flags := flags
            id := msgId
            fromId := fromId
            peerId := history.peer
            viaBotId := viaBotId
            replyHeader := replyHeader
            date := mtpDate
            message := fields.text
            media := fields.media
            replyMarkup := markup
            entities := fields.entities
            views := views
            forwards := forwards
            postAuthor := postAuthor }
         clientFlags := clientFlags
         type := .Unread }] }


/-- The members of `SendGeo` read by `getSentMessageFields`: the location (as
`_location.toMTP()` encodes it) and the optional period, heading and
proximity notification radius; `none` stands for an empty `std::optional`. -/
structure SendGeo where
  _location : Int × Int
  _period : Option Int
  _heading : Option Int
  _proximityNotificationRadius : Option Int
deriving DecidableEq, Repr

/-- Embedding of `SendGeo::getSentMessageFields` (lines 98-113). `f_heading` and
`f_proximity_notification_radius` are the bit masks
`MTPDmessageMediaGeoLive::Flag::f_heading` and
`MTPDmessageMediaGeoLive::Flag::f_proximity_notification_radius`, whose
values come from the generated scheme outside the excerpt; `Flag(0)` is 0. -/
def SendGeo.getSentMessageFields (f_heading f_proximity_notification_radius : Nat)
    (self : SendGeo) : SentMTPMessageFields :=
  let result : SentMTPMessageFields := {}
  match self._period with
  | some period =>
    { result with
      media := .messageMediaGeoLive
        ((if self._heading.isSome then f_heading else 0)
          ||| (if self._proximityNotificationRadius.isSome then
                f_proximity_notification_radius else 0))
        self._location
        (self._heading.getD 0)
        period
        (self._proximityNotificationRadius.getD 0) }
  | none =>
    { result with media := .messageMediaGeo self._location }

/-! ## Descriptions the embedded functions are compared with -/

/-- The widgets `setInnerFocus` can give the focus to. -/
inductive FocusTarget
  | testingThemeWarning
  | layer
  | passcodeLock
  | main
  | intro
deriving DecidableEq, Repr

/-- The focus candidates in their priority order, each with whether it
qualifies: the layer stack has to exist and be able to take the focus, the
others only have to exist. -/
def focusCandidates (env : Env) (w : MainWindow) : List (FocusTarget × Bool) :=
  [ (.testingThemeWarning, w._testingThemeWarning.isSome),
    (.layer, w._layer.isSome && env.layerCanSetFocus),
    (.passcodeLock, w._passcodeLock.isSome),
    (.main, w._main.isSome),
    (.intro, w._intro.isSome) ]

/-- The first candidate that qualifies, if any. -/
def focusTarget (env : Env) (w : MainWindow) : Option FocusTarget :=
  ((focusCandidates env w).find? (fun c => c.2)).map (fun c => c.1)

/-- Giving the focus to one widget: `setFocus()` on the theme warning,
`setInnerFocus()` on each of the others; no other widget receives a call. -/
def giveFocus (target : FocusTarget) (w : MainWindow) : MainWindow :=
  match target with
  | .testingThemeWarning =>
    { w with _testingThemeWarning := MainWindow.call w._testingThemeWarning .setFocus }
  | .layer => { w with _layer := MainWindow.call w._layer .setInnerFocus }
  | .passcodeLock =>
    { w with _passcodeLock := MainWindow.call w._passcodeLock .setInnerFocus }
  | .main => { w with _main := MainWindow.call w._main .setInnerFocus }
  | .intro => { w with _intro := MainWindow.call w._intro .setInnerFocus }

/-- The description of `setInnerFocus`: the focus goes to the first candidate
that qualifies, and nothing happens when there is none. -/
def setInnerFocusDescribed (env : Env) (w : MainWindow) : MainWindow :=
  match focusTarget env w with
  | some target => giveFocus target w
  | none => w

/-- The width skipped on the left of the main widget, as the description of
`updateControlsGeometry` words it: the session controller's `filtersWidth()`
when a session controller exists, 0 otherwise. -/
def filtersSkip (env : Env) : Int :=
  match env.sessionController with
  | some session => session.filtersWidth
  | none => 0

/-- The rectangle the description of `updateControlsGeometry` gives the main
widget. -/
def mainGeometryDescribed (env : Env) : QRect :=
  { x := env.body.x + filtersSkip env
    y := env.body.y
    width := env.body.width - filtersSkip env
    height := env.body.height }

/-- The side of the layer image painted over the icon, when there is one. -/
def CounterIcon.badgeSide : CounterIcon → Option Int
  | .icon { overlay := some (.pixmap _ _ image), .. } => some image.size
  | _ => none

/-- The offset at which the layer image is painted over the icon, when there
is one. -/
def CounterIcon.badgeOffset : CounterIcon → Option (Int × Int)
  | .icon { overlay := some (.pixmap x y _), .. } => some (x, y)
  | _ => none

/-- The side of the icon itself outside layer mode. -/
def CounterIcon.iconSide : CounterIcon → Option Int
  | .icon image => some image.size
  | .layer _ => none

/-! ## Predicates and sample inputs used in the statements -/

/-- The values `codeState` holds between calls. -/
def validCodeState (s : Int) : Prop := s = 0 ∨ s = 1 ∨ s = 2 ∨ s = 3

/-- What a value of `codeState` records about the keys fed so far: a state
`k` above 0 means that the last `k` keys are the first `k` keys of the code
F7, F6, F7, F8. -/
def codeStateMatches (s : Int) (fed : List Int) : Prop :=
  s = 0
  ∨ (s = 1 ∧ [Qt.Key_F7] <:+ fed)
  ∨ (s = 2 ∧ [Qt.Key_F7, Qt.Key_F6] <:+ fed)
  ∨ (s = 3 ∧ [Qt.Key_F7, Qt.Key_F6, Qt.Key_F7] <:+ fed)

/-- The main widget and the intro widget do not both exist. -/
def MainWindow.noMainWithIntro (w : MainWindow) : Prop :=
  ¬ (w._main.isSome = true ∧ w._intro.isSome = true)

/-- An environment with a logged-in session, no application passcode, and a
body of 800 by 600. -/
def Env.loggedIn : Env :=
  { sessionController := some { filtersWidth := 0, supportMode := false }
    passcodeLocked := false
    sessionExists := true
    isHidden := false
    body := { x := 0, y := 0, width := 800, height := 600 }
    layerCanSetFocus := false
    layerInFocusChain := false
    isAppWindow := true
    clearWidgetsDropsLayer := false }

/-- A window whose only child widget is a passcode lock. -/
def MainWindow.onlyPasscodeLock : MainWindow :=
  { MainWindow.initial with _passcodeLock := some [] }

/-- Font metrics for sample evaluations: a text of `n` characters has width
`n`; height and ascent equal the font size. -/
def FontMetrics.sample : FontMetrics :=
  { width := fun _ text => text.length
    height := fun fontSize => fontSize
    ascent := fun fontSize => fontSize }

/-- Restriction errors for sample evaluations: stickers and gifs are
restricted, media and the rest are not. -/
def sampleRestrictionError : ChatRestriction → Option String
  | .SendStickers => some "no stickers"
  | .SendGifs => some "no gifs"
  | _ => none

/-! ## Theorems: the language-testing key code -/

theorem FeedLangTestingKey_state (s key : Int) :
    validCodeState (FeedLangTestingKey s key).1 := by
  unfold FeedLangTestingKey validCodeState
  by_cases h : ((s == 0 && key == Qt.Key_F7) || (s == 1 && key == Qt.Key_F6)
      || (s == 2 && key == Qt.Key_F7) || (s == 3 && key == Qt.Key_F8)) = true
  · simp only [h, if_true]
    simp only [Bool.or_eq_true, Bool.and_eq_true, beq_iff_eq] at h
    rcases h with ((h | h) | h) | h <;> obtain ⟨hs, -⟩ := h <;> subst hs <;> decide
  · rw [Bool.not_eq_true] at h
    simp [h]

theorem feedKeys_state (keys : List Int) (s : Int) (hs : validCodeState s) :
    validCodeState (feedKeys s keys).1 := by
  induction keys generalizing s with
  | nil => exact hs
  | cons key rest ih =>
    simp only [feedKeys]
    exact ih _ (FeedLangTestingKey_state s key)

theorem feedKeys_append (a b : List Int) (s : Int) :
    feedKeys s (a ++ b)
      = ((feedKeys (feedKeys s a).1 b).1, (feedKeys s a).2 ++ (feedKeys (feedKeys s a).1 b).2) := by
  induction a generalizing s with
  | nil => simp [feedKeys]
  | cons key rest ih => simp [feedKeys, ih]

/-- C1: from the initial state the keys F7, F6, F7, F8 switch to the test
language on the fourth call only, and `codeState` is 0 again afterwards; the
states in between are 1, 2, 3, and the event filter hands the key over when
debug logging is on and the event is addressed to the window handle. -/
theorem C1_code_switches_on_fourth_key :
    feedKeys initialCodeState [Qt.Key_F7, Qt.Key_F6, Qt.Key_F7, Qt.Key_F8]
      = (0, [false, false, false, true])
    ∧ FeedLangTestingKey 0 Qt.Key_F7 = (1, false)
    ∧ FeedLangTestingKey 1 Qt.Key_F6 = (2, false)
    ∧ FeedLangTestingKey 2 Qt.Key_F7 = (3, false)
    ∧ FeedLangTestingKey 3 Qt.Key_F8 = (0, true)
    ∧ eventFilterKeyPress true true 3 Qt.Key_F8 = (0, true) := by
  decide

/-- C2, as stated, fails: after F7, F7, F6, F7, F8 the four most recent keys
are F7, F6, F7, F8 and the last call does not switch to the test language. -/
theorem C2_counterexample :
    [Qt.Key_F7, Qt.Key_F6, Qt.Key_F7, Qt.Key_F8]
        <:+ [Qt.Key_F7, Qt.Key_F7, Qt.Key_F6, Qt.Key_F7, Qt.Key_F8]
    ∧ lastCallSwitches [Qt.Key_F7, Qt.Key_F7, Qt.Key_F6, Qt.Key_F7, Qt.Key_F8] = false := by
  decide

/-- C2, amended: when the four most recent keys of a run from the initial
state are F7, F6, F7, F8, the last call switches to the test language exactly
when `codeState` was 0 at the first of these four keys. -/
theorem C2_switches_iff_code_started_at_zero (earlier : List Int) :
    lastCallSwitches (earlier ++ [Qt.Key_F7, Qt.Key_F6, Qt.Key_F7, Qt.Key_F8]) = true
      ↔ (feedKeys initialCodeState earlier).1 = 0 := by
  have hv := feedKeys_state earlier initialCodeState (Or.inl rfl)
  unfold lastCallSwitches
  rw [feedKeys_append]
  rcases hv with h | h | h | h <;> rw [h] <;> simp [feedKeys, FeedLangTestingKey] <;> decide

/-! ## Theorems: the counter badge -/

theorem layerCounterText_of_ge {count : Int} (h : 1000 ≤ count) :
    layerCounterText count = ".." ++ argIntPadded (Int.tmod count 100) 2 '0' := by
  have h' : ¬ count < 1000 := not_lt.mpr h
  simp [layerCounterText, h']

theorem tmod_hundred_of_tmod_thousand {a b : Int} (ha : 0 ≤ a) (hb : 0 ≤ b)
    (h : Int.tmod a 1000 = Int.tmod b 1000) : Int.tmod a 100 = Int.tmod b 100 := by
  rw [Int.tmod_eq_emod ha (by decide)] at h ⊢
  rw [Int.tmod_eq_emod hb (by decide)] at h ⊢
  omega

theorem eq_of_tmod_thousand_of_lt {a b : Int} (ha : 0 ≤ a) (hb : 0 ≤ b)
    (ha' : a < 1000) (hb' : b < 1000)
    (h : Int.tmod a 1000 = Int.tmod b 1000) : a = b := by
  rw [Int.tmod_eq_emod ha (by decide), Int.tmod_eq_emod hb (by decide)] at h
  omega

theorem layerCounterText_congr {a b : Int} (ha : 0 ≤ a) (hb : 0 ≤ b)
    (hmod : Int.tmod a 1000 = Int.tmod b 1000) (hside : a < 1000 ↔ b < 1000) :
    layerCounterText a = layerCounterText b := by
  by_cases h : a < 1000
  · rw [eq_of_tmod_thousand_of_lt ha hb h (hside.mp h) hmod]
  · have h' : ¬ b < 1000 := fun hb' => h (hside.mpr hb')
    rw [layerCounterText_of_ge (not_lt.mp h), layerCounterText_of_ge (not_lt.mp h'),
      tmod_hundred_of_tmod_thousand ha hb hmod]

/-- C3, as stated, fails: the counts 5 and 1005 have the same remainder modulo
1000, and in layer mode the badge text is "5" for the one and "..05" for the
other, with a different font size, padding and radius. -/
theorem C3_counterexample :
    Int.tmod 5 1000 = Int.tmod 1005 1000
    ∧ layerCounterText 5 = "5" ∧ layerCounterText 1005 = "..05"
    ∧ layerFontSize 16 (layerCounterText 5).length = 11
    ∧ layerFontSize 16 (layerCounterText 1005).length = 8
    ∧ layerPadding 16 (layerCounterText 5).length = 5
    ∧ layerPadding 16 (layerCounterText 1005).length = 1
    ∧ layerRadius 16 (layerCounterText 5).length = 8
    ∧ layerRadius 16 (layerCounterText 1005).length = 3
    ∧ iconWithCounter FontMetrics.sample false (-16) 5 0 1 false
      ≠ iconWithCounter FontMetrics.sample false (-16) 1005 0 1 false := by
  decide

/-- C3, amended: in layer mode (negative size), two non-negative counts with
the same remainder modulo 1000 that are both below 1000 or both at least 1000
give the same counter text, and with the same size and colours the same
image: the same text, font size, padding, radius and positions. -/
theorem C3_layer_badge_same_for_same_remainder (fm : FontMetrics)
    (supportMode smallIcon : Bool) (size a b : Int) (bg fg : Color)
    (hsize : size < 0) (ha : 0 ≤ a) (hb : 0 ≤ b)
    (hmod : Int.tmod a 1000 = Int.tmod b 1000) (hside : a < 1000 ↔ b < 1000) :
    layerCounterText a = layerCounterText b
    ∧ iconWithCounter fm supportMode size a bg fg smallIcon
      = iconWithCounter fm supportMode size b bg fg smallIcon := by
  have htext := layerCounterText_congr ha hb hmod hside
  refine ⟨htext, ?_⟩
  simp only [iconWithCounter, hsize, if_true, iconWithCounterLayer, htext]

theorem C3_layer_badge_same_for_same_remainder_witness :
    layerCounterText 1005 = layerCounterText 2005
    ∧ iconWithCounter FontMetrics.sample false (-16) 1005 0 1 false
      = iconWithCounter FontMetrics.sample false (-16) 2005 0 1 false :=
  C3_layer_badge_same_for_same_remainder FontMetrics.sample false false (-16) 1005 2005 0 1
    (by decide) (by decide) (by decide) (by decide) (by decide)

/-! ## Theorems: which child widgets exist -/

namespace MainWindow

@[simp] theorem call_isSome (widget : Option Widget) (c : WidgetCall) :
    (call widget c).isSome = widget.isSome := by
  cases widget <;> rfl

@[simp] theorem ite_main (c : Prop) [Decidable c] (a b : MainWindow) :
    (if c then a else b)._main = if c then a._main else b._main := apply_ite _ _ _ _

@[simp] theorem ite_intro (c : Prop) [Decidable c] (a b : MainWindow) :
    (if c then a else b)._intro = if c then a._intro else b._intro := apply_ite _ _ _ _

@[simp] theorem ite_passcodeLock (c : Prop) [Decidable c] (a b : MainWindow) :
    (if c then a else b)._passcodeLock = if c then a._passcodeLock else b._passcodeLock :=
  apply_ite _ _ _ _

@[simp] theorem ite_layer (c : Prop) [Decidable c] (a b : MainWindow) :
    (if c then a else b)._layer = if c then a._layer else b._layer := apply_ite _ _ _ _

@[simp] theorem ite_isSome (c : Prop) [Decidable c] (a b : Option Widget) :
    (if c then a else b).isSome = if c then a.isSome else b.isSome := apply_ite _ _ _ _

@[simp] theorem emit_main (w : MainWindow) (e : Effect) : (w.emit e)._main = w._main := rfl
@[simp] theorem emit_intro (w : MainWindow) (e : Effect) : (w.emit e)._intro = w._intro := rfl
@[simp] theorem emit_passcodeLock (w : MainWindow) (e : Effect) :
    (w.emit e)._passcodeLock = w._passcodeLock := rfl
@[simp] theorem emit_layer (w : MainWindow) (e : Effect) : (w.emit e)._layer = w._layer := rfl
@[simp] theorem emit_testingThemeWarning (w : MainWindow) (e : Effect) :
    (w.emit e)._testingThemeWarning = w._testingThemeWarning := rfl

@[simp] theorem updateControlsGeometry_main (env : Env) (w : MainWindow) :
    (updateControlsGeometry env w)._main.isSome = w._main.isSome := by
  simp [updateControlsGeometry]

@[simp] theorem updateControlsGeometry_intro (env : Env) (w : MainWindow) :
    (updateControlsGeometry env w)._intro.isSome = w._intro.isSome := by
  simp [updateControlsGeometry]

@[simp] theorem updateControlsGeometry_passcodeLock (env : Env) (w : MainWindow) :
    (updateControlsGeometry env w)._passcodeLock.isSome = w._passcodeLock.isSome := by
  simp [updateControlsGeometry]

@[simp] theorem updateControlsGeometry_layer (env : Env) (w : MainWindow) :
    (updateControlsGeometry env w)._layer.isSome = w._layer.isSome := by
  simp [updateControlsGeometry]

@[simp] theorem setInnerFocus_main (env : Env) (w : MainWindow) :
    (setInnerFocus env w)._main.isSome = w._main.isSome := by
  unfold setInnerFocus; split_ifs <;> simp

@[simp] theorem setInnerFocus_intro (env : Env) (w : MainWindow) :
    (setInnerFocus env w)._intro.isSome = w._intro.isSome := by
  unfold setInnerFocus; split_ifs <;> simp

@[simp] theorem setInnerFocus_passcodeLock (env : Env) (w : MainWindow) :
    (setInnerFocus env w)._passcodeLock.isSome = w._passcodeLock.isSome := by
  unfold setInnerFocus; split_ifs <;> simp

@[simp] theorem setInnerFocus_layer (env : Env) (w : MainWindow) :
    (setInnerFocus env w)._layer.isSome = w._layer.isSome := by
  unfold setInnerFocus; split_ifs <;> simp

@[simp] theorem fixOrder_main (w : MainWindow) : (fixOrder w)._main = w._main := rfl
@[simp] theorem fixOrder_intro (w : MainWindow) : (fixOrder w)._intro = w._intro := rfl
@[simp] theorem fixOrder_passcodeLock (w : MainWindow) :
    (fixOrder w)._passcodeLock.isSome = w._passcodeLock.isSome := by
  simp [fixOrder]
@[simp] theorem fixOrder_layer (w : MainWindow) :
    (fixOrder w)._layer.isSome = w._layer.isSome := by
  simp [fixOrder]

@[simp] theorem destroyLayer_main (env : Env) (w : MainWindow) :
    (destroyLayer env w)._main.isSome = w._main.isSome := by
  unfold destroyLayer; split_ifs <;> simp

@[simp] theorem destroyLayer_intro (env : Env) (w : MainWindow) :
    (destroyLayer env w)._intro.isSome = w._intro.isSome := by
  unfold destroyLayer; split_ifs <;> simp

@[simp] theorem destroyLayer_passcodeLock (env : Env) (w : MainWindow) :
    (destroyLayer env w)._passcodeLock.isSome = w._passcodeLock.isSome := by
  unfold destroyLayer; split_ifs <;> simp

@[simp] theorem destroyLayer_layer (env : Env) (w : MainWindow) :
    (destroyLayer env w)._layer.isSome = false := by
  unfold destroyLayer; split_ifs <;> simp_all

@[simp] theorem ensureLayerCreated_main (env : Env) (w : MainWindow) :
    (ensureLayerCreated env w)._main = w._main := by
  unfold ensureLayerCreated; split_ifs <;> simp

@[simp] theorem ensureLayerCreated_intro (env : Env) (w : MainWindow) :
    (ensureLayerCreated env w)._intro = w._intro := by
  unfold ensureLayerCreated; split_ifs <;> simp

@[simp] theorem ensureLayerCreated_passcodeLock (env : Env) (w : MainWindow) :
    (ensureLayerCreated env w)._passcodeLock = w._passcodeLock := by
  unfold ensureLayerCreated; split_ifs <;> simp

@[simp] theorem hideSettingsAndLayer_main (env : Env) (a : anim.type) (w : MainWindow) :
    (hideSettingsAndLayer env a w)._main.isSome = w._main.isSome := by
  unfold hideSettingsAndLayer ui_hideSettingsAndLayer; split_ifs <;> simp

@[simp] theorem hideSettingsAndLayer_intro (env : Env) (a : anim.type) (w : MainWindow) :
    (hideSettingsAndLayer env a w)._intro.isSome = w._intro.isSome := by
  unfold hideSettingsAndLayer ui_hideSettingsAndLayer; split_ifs <;> simp

@[simp] theorem hideSettingsAndLayer_passcodeLock (env : Env) (a : anim.type)
    (w : MainWindow) :
    (hideSettingsAndLayer env a w)._passcodeLock.isSome = w._passcodeLock.isSome := by
  unfold hideSettingsAndLayer ui_hideSettingsAndLayer; split_ifs <;> simp

@[simp] theorem clearWidgets_main (env : Env) (w : MainWindow) :
    (clearWidgets env w)._main = none := by
  unfold clearWidgets clearWidgetsHook; split_ifs <;> simp

@[simp] theorem clearWidgets_intro (env : Env) (w : MainWindow) :
    (clearWidgets env w)._intro = none := by
  unfold clearWidgets clearWidgetsHook; split_ifs <;> simp

theorem clearWidgets_passcodeLock (env : Env) (w : MainWindow) :
    (clearWidgets env w)._passcodeLock.isSome
      = (w._passcodeLock.isSome && env.passcodeLocked) := by
  unfold clearWidgets clearWidgetsHook; split_ifs <;> simp_all

theorem setupIntro_main (env : Env) (w : MainWindow) : (setupIntro env w)._main.isSome = false := by
  simp [setupIntro]

theorem setupIntro_intro (env : Env) (w : MainWindow) : (setupIntro env w)._intro.isSome = true := by
  simp [setupIntro]

theorem setupPasscodeLock_main (env : Env) (w : MainWindow) :
    (setupPasscodeLock env w)._main.isSome = w._main.isSome := by
  simp [setupPasscodeLock]

theorem setupPasscodeLock_intro (env : Env) (w : MainWindow) :
    (setupPasscodeLock env w)._intro.isSome = w._intro.isSome := by
  simp [setupPasscodeLock]

theorem clearPasscodeLock_main (env : Env) (w : MainWindow) :
    (clearPasscodeLock env w)._main.isSome = w._main.isSome := by
  unfold clearPasscodeLock
  split_ifs <;> simp

theorem clearPasscodeLock_intro (env : Env) (w : MainWindow) :
    (clearPasscodeLock env w)._intro.isSome = w._intro.isSome := by
  unfold clearPasscodeLock
  split_ifs <;> simp

theorem setupMain_ok (env : Env) (w w' : MainWindow) (h : setupMain env w = .ok w') :
    w'._main.isSome = true ∧ w'._intro.isSome = false := by
  unfold setupMain at h
  by_cases hs : env.sessionExists = true
  · simp only [hs, Bool.not_true, Bool.false_eq_true, if_false] at h
    split at h
    · cases h
    · injection h with h
      subst h
      simp
  · simp [hs] at h

theorem setupMain_error (env : Env) (w : MainWindow) (f : Failure)
    (h : setupMain env w = .error f) :
    (f = .expectsSessionExists ∧ env.sessionExists = false)
    ∨ (f = .assertNotAnimated
      ∧ (w._main.isSome && w._layer.isSome && !w._passcodeLock.isSome) = true
      ∧ (w._intro.isSome || (w._passcodeLock.isSome && !env.passcodeLocked)) = true) := by
  unfold setupMain at h
  by_cases hs : env.sessionExists = true
  · simp only [hs, Bool.not_true, Bool.false_eq_true, if_false] at h
    split at h
    · rename_i hg
      injection h with h
      rw [Bool.and_eq_true] at hg
      exact Or.inr ⟨h.symm, hg.1, hg.2⟩
    · cases h
  · rw [Bool.not_eq_true] at hs
    simp only [hs, Bool.not_false, if_true] at h
    injection h with h
    exact Or.inl ⟨h.symm, hs⟩

theorem setupMain_returns (env : Env) (w : MainWindow) (hs : env.sessionExists = true)
    (hinv : ¬ (w._main.isSome = true ∧ w._intro.isSome = true)) :
    ∃ w', setupMain env w = .ok w' := by
  cases hres : setupMain env w with
  | ok w' => exact ⟨w', rfl⟩
  | error f =>
    exfalso
    rcases setupMain_error env w f hres with ⟨-, hf⟩ | ⟨-, hk, ha⟩
    · rw [hs] at hf; cases hf
    · simp only [Bool.and_eq_true, Bool.not_eq_true'] at hk
      obtain ⟨⟨hm, -⟩, hp⟩ := hk
      simp only [hp, Bool.false_and, Bool.or_false] at ha
      exact hinv ⟨hm, ha⟩

end MainWindow

/-! ## Theorems: layers under the passcode lock, and the main/intro invariant -/

/-- C4: while the passcode lock widget exists, `showSettings`,
`showSpecialLayer` (for every layer argument and animation type) and
`showMainMenu` return the window unchanged: no layer stack is created, an
existing one receives no call, and no other call is made. -/
theorem C4_passcode_lock_blocks_layers (env : Env) (w : MainWindow)
    (hlock : w._passcodeLock.isSome = true) :
    w.showSettings env = w
    ∧ (∀ (layer : Option LayerWidget) (animated : anim.type),
        w.showSpecialLayer env layer animated = w)
    ∧ w.showMainMenu env = w := by
  refine ⟨?_, ?_, ?_⟩
  · simp [MainWindow.showSettings, hlock]
  · intro layer animated
    simp [MainWindow.showSpecialLayer, hlock]
  · simp [MainWindow.showMainMenu, hlock]

theorem C4_passcode_lock_blocks_layers_witness :
    MainWindow.onlyPasscodeLock.showSettings Env.loggedIn = MainWindow.onlyPasscodeLock
    ∧ (∀ (layer : Option LayerWidget) (animated : anim.type),
        MainWindow.onlyPasscodeLock.showSpecialLayer Env.loggedIn layer animated
          = MainWindow.onlyPasscodeLock)
    ∧ MainWindow.onlyPasscodeLock.showMainMenu Env.loggedIn = MainWindow.onlyPasscodeLock :=
  C4_passcode_lock_blocks_layers Env.loggedIn MainWindow.onlyPasscodeLock (by decide)

theorem WindowOp.apply_noMainWithIntro (op : WindowOp) (env : Env) (w w' : MainWindow)
    (h : op.apply env w = .ok w') (hinv : w.noMainWithIntro) : w'.noMainWithIntro := by
  unfold MainWindow.noMainWithIntro at hinv ⊢
  cases op <;> simp only [WindowOp.apply] at h
  · injection h with h; subst h
    simp [MainWindow.setupIntro_main]
  · simp [(MainWindow.setupMain_ok env w w' h).2]
  · injection h with h; subst h
    rw [MainWindow.setupPasscodeLock_main, MainWindow.setupPasscodeLock_intro]; exact hinv
  · injection h with h; subst h
    rw [MainWindow.clearPasscodeLock_main, MainWindow.clearPasscodeLock_intro]; exact hinv
  · injection h with h; subst h
    simp
  · injection h with h; subst h
    simpa using hinv
  · injection h with h; subst h
    simpa using hinv

theorem runOps_noMainWithIntro (ops : List (Env × WindowOp)) (w w' : MainWindow)
    (h : runOps ops w = .ok w') (hinv : w.noMainWithIntro) : w'.noMainWithIntro := by
  induction ops generalizing w with
  | nil =>
    simp only [runOps] at h
    injection h with h; subst h; exact hinv
  | cons step rest ih =>
    obtain ⟨env, op⟩ := step
    simp only [runOps] at h
    cases hstep : op.apply env w with
    | ok w1 =>
      rw [hstep] at h
      exact ih w1 h (WindowOp.apply_noMainWithIntro op env w w1 hstep hinv)
    | error f => rw [hstep] at h; cases h

theorem setupMain_assert_holds (env : Env) (w : MainWindow) (hinv : w.noMainWithIntro) :
    w.setupMain env ≠ .error .assertNotAnimated := by
  intro h
  rcases MainWindow.setupMain_error env w _ h with ⟨hf, -⟩ | ⟨-, hk, ha⟩
  · cases hf
  · simp only [Bool.and_eq_true, Bool.not_eq_true'] at hk
    obtain ⟨⟨hm, -⟩, hp⟩ := hk
    simp only [hp, Bool.false_and, Bool.or_false] at ha
    exact hinv ⟨hm, ha⟩

theorem runOps_assert_holds (ops : List (Env × WindowOp)) (w : MainWindow)
    (hinv : w.noMainWithIntro) : runOps ops w ≠ .error .assertNotAnimated := by
  induction ops generalizing w with
  | nil => simp [runOps]
  | cons step rest ih =>
    obtain ⟨env, op⟩ := step
    simp only [runOps]
    cases hstep : op.apply env w with
    | ok w1 =>
      exact ih w1 (WindowOp.apply_noMainWithIntro op env w w1 hstep hinv)
    | error f =>
      intro h
      injection h with h
      subst h
      cases op <;> simp only [WindowOp.apply, reduceCtorEq] at hstep
      exact setupMain_assert_holds env w hinv hstep

theorem initial_noMainWithIntro : MainWindow.initial.noMainWithIntro := by
  simp [MainWindow.noMainWithIntro, MainWindow.initial]

/-- C8: no sequence of `setupIntro`, `setupMain`, `setupPasscodeLock`,
`clearPasscodeLock`, `clearWidgets`, layer creation and layer destruction run
from the initial window fails `Assert(!animated)`; and in every window state
such a sequence reaches, when the main widget and the layer stack exist and
the passcode lock does not, the intro widget is absent, `animated` is false,
and a further `setupMain` does not fail the assertion. -/
theorem C8_setupMain_assert_never_fails (ops : List (Env × WindowOp)) :
    runOps ops MainWindow.initial ≠ .error .assertNotAnimated
    ∧ ∀ (w : MainWindow) (env : Env), runOps ops MainWindow.initial = .ok w →
        (w._main.isSome && w._layer.isSome && !w._passcodeLock.isSome) = true →
        w._intro.isSome = false
        ∧ (w._intro.isSome || (w._passcodeLock.isSome && !env.passcodeLocked)) = false
        ∧ w.setupMain env ≠ .error .assertNotAnimated := by
  refine ⟨runOps_assert_holds ops _ initial_noMainWithIntro, ?_⟩
  intro w env hrun hk
  have hinv := runOps_noMainWithIntro ops _ w hrun initial_noMainWithIntro
  simp only [Bool.and_eq_true, Bool.not_eq_true'] at hk
  obtain ⟨⟨hm, -⟩, hp⟩ := hk
  have hi : w._intro.isSome = false := by
    cases hi : w._intro.isSome
    · rfl
    · exact absurd ⟨hm, hi⟩ hinv
  exact ⟨hi, by simp [hi, hp], setupMain_assert_holds env w hinv⟩

theorem C8_setupMain_assert_never_fails_witness :
    (∃ w, runOps [(Env.loggedIn, .setupMain), (Env.loggedIn, .ensureLayerCreated)]
        MainWindow.initial = .ok w
      ∧ (w._main.isSome && w._layer.isSome && !w._passcodeLock.isSome) = true
      ∧ w._intro.isSome = false
      ∧ w.setupMain Env.loggedIn ≠ .error .assertNotAnimated) := by
  have h := (C8_setupMain_assert_never_fails
    [(Env.loggedIn, .setupMain), (Env.loggedIn, .ensureLayerCreated)]).2
  refine ⟨_, rfl, by decide, ?_, ?_⟩
  · exact (h _ Env.loggedIn rfl (by decide)).1
  · exact (h _ Env.loggedIn rfl (by decide)).2.2

/-- C9: the main widget and the intro widget never exist together. The
predicate holds in the initial window and is kept by `setupIntro`,
`setupMain` (whenever it returns), `setupPasscodeLock`, `clearPasscodeLock`
and `clearWidgetsHook`. After `setupIntro` the intro exists and main does
not; `setupMain` returns when a session exists and the predicate holds, and
whenever it returns main exists and the intro does not. -/
theorem C9_main_and_intro_exclusive (env : Env) (w : MainWindow) :
    MainWindow.initial.noMainWithIntro
    ∧ (w.noMainWithIntro → (w.setupIntro env).noMainWithIntro)
    ∧ (w.noMainWithIntro → ∀ w', w.setupMain env = .ok w' → w'.noMainWithIntro)
    ∧ (w.noMainWithIntro → (w.setupPasscodeLock env).noMainWithIntro)
    ∧ (w.noMainWithIntro → (w.clearPasscodeLock env).noMainWithIntro)
    ∧ (w.noMainWithIntro → (w.clearWidgetsHook env).noMainWithIntro)
    ∧ ((w.setupIntro env)._intro.isSome = true ∧ (w.setupIntro env)._main.isSome = false)
    ∧ (env.sessionExists = true → w.noMainWithIntro → ∃ w', w.setupMain env = .ok w')
    ∧ (∀ w', w.setupMain env = .ok w' → w'._main.isSome = true ∧ w'._intro.isSome = false) := by
  refine ⟨initial_noMainWithIntro, ?_, ?_, ?_, ?_, ?_, ?_, ?_, ?_⟩
  · intro _
    simp [MainWindow.noMainWithIntro, MainWindow.setupIntro_main]
  · intro _ w' h
    simp [MainWindow.noMainWithIntro, (MainWindow.setupMain_ok env w w' h).2]
  · intro hinv
    unfold MainWindow.noMainWithIntro at hinv ⊢
    rw [MainWindow.setupPasscodeLock_main, MainWindow.setupPasscodeLock_intro]; exact hinv
  · intro hinv
    unfold MainWindow.noMainWithIntro at hinv ⊢
    rw [MainWindow.clearPasscodeLock_main, MainWindow.clearPasscodeLock_intro]; exact hinv
  · intro _
    unfold MainWindow.noMainWithIntro MainWindow.clearWidgetsHook
    split_ifs <;> simp
  · exact ⟨MainWindow.setupIntro_intro env w, MainWindow.setupIntro_main env w⟩
  · exact MainWindow.setupMain_returns env w
  · exact MainWindow.setupMain_ok env w

theorem C9_main_and_intro_exclusive_witness :
    (MainWindow.initial.setupIntro Env.loggedIn).noMainWithIntro
    ∧ (∃ w', (MainWindow.initial.setupIntro Env.loggedIn).setupMain Env.loggedIn = .ok w'
        ∧ w'._main.isSome = true ∧ w'._intro.isSome = false) := by
  have h := C9_main_and_intro_exclusive Env.loggedIn
    (MainWindow.initial.setupIntro Env.loggedIn)
  have h0 := (C9_main_and_intro_exclusive Env.loggedIn MainWindow.initial).2.1
    initial_noMainWithIntro
  obtain ⟨w', hw'⟩ := h.2.2.2.2.2.2.2.1 rfl h0
  exact ⟨h0, w', hw', h.2.2.2.2.2.2.2.2 w' hw'⟩

/-- C10, as stated, fails: in the window reached from the initial one by
`setupPasscodeLock` (a passcode lock, no main widget, no intro widget)
`clearPasscodeLock` changes nothing and the passcode lock widget still
exists. -/
theorem C10_counterexample :
    runOps [(Env.loggedIn, .setupPasscodeLock)] MainWindow.initial
      = .ok (MainWindow.initial.setupPasscodeLock Env.loggedIn)
    ∧ (MainWindow.initial.setupPasscodeLock Env.loggedIn)._passcodeLock.isSome = true
    ∧ (MainWindow.initial.setupPasscodeLock Env.loggedIn)._intro.isSome = false
    ∧ (MainWindow.initial.setupPasscodeLock Env.loggedIn)._main.isSome = false
    ∧ ((MainWindow.initial.setupPasscodeLock Env.loggedIn).clearPasscodeLock
          Env.loggedIn)._passcodeLock.isSome = true
    ∧ (MainWindow.initial.setupPasscodeLock Env.loggedIn).clearPasscodeLock Env.loggedIn
      = MainWindow.initial.setupPasscodeLock Env.loggedIn :=
  ⟨rfl, by decide, by decide, by decide, by decide, by decide⟩

/-- C10, amended: for every window state in which the intro widget or the
main widget exists, or no passcode lock widget exists, no passcode lock widget
exists after `clearPasscodeLock` returns. -/
theorem C10_clearPasscodeLock_clears_with_main_or_intro (env : Env) (w : MainWindow)
    (h : w._intro.isSome = true ∨ w._main.isSome = true ∨ w._passcodeLock.isSome = false) :
    (w.clearPasscodeLock env)._passcodeLock.isSome = false := by
  unfold MainWindow.clearPasscodeLock
  by_cases hp : w._passcodeLock.isSome = true
  · by_cases hi : w._intro.isSome = true
    · simp [hp, hi]
    · have hm : w._main.isSome = true := by
        rcases h with h | h | h
        · exact absurd h hi
        · exact h
        · rw [hp] at h; cases h
      rw [Bool.not_eq_true] at hi
      simp [hp, hi, hm]
  · rw [Bool.not_eq_true] at hp
    simp [hp]

theorem C10_clearPasscodeLock_clears_with_main_or_intro_witness :
    ((MainWindow.initial.setupIntro Env.loggedIn).setupPasscodeLock Env.loggedIn)._intro.isSome
      = true
    ∧ ((MainWindow.initial.setupIntro Env.loggedIn).setupPasscodeLock
        Env.loggedIn)._passcodeLock.isSome = true
    ∧ (((MainWindow.initial.setupIntro Env.loggedIn).setupPasscodeLock
        Env.loggedIn).clearPasscodeLock Env.loggedIn)._passcodeLock.isSome = false :=
  ⟨by decide, by decide,
   C10_clearPasscodeLock_clears_with_main_or_intro Env.loggedIn
    ((MainWindow.initial.setupIntro Env.loggedIn).setupPasscodeLock Env.loggedIn)
    (Or.inl (by decide))⟩

/-! ## Theorems: the tray toggle -/

/-- C7: `toggleDisplayNotifyFromTray` changes nothing when the window
controller is locked or there is no session controller: all five settings
keep their values, the settings are not saved and no `notifySettingsChanged`
is sent. Otherwise `desktopNotify` is replaced by its negation. -/
theorem C7_toggle_guarded_by_lock_and_session (locked hasSession isActive : Bool)
    (settings : NotifySettings) :
    ((locked = true ∨ hasSession = false) →
      (toggleDisplayNotifyFromTray locked hasSession isActive settings).settings = settings
      ∧ (toggleDisplayNotifyFromTray locked hasSession isActive settings).saved = false
      ∧ (toggleDisplayNotifyFromTray locked hasSession isActive settings).notified = [])
    ∧ ((locked = false ∧ hasSession = true) →
      (toggleDisplayNotifyFromTray locked hasSession isActive settings).settings.desktopNotify
        = !settings.desktopNotify) := by
  constructor
  · rintro (h | h)
    · simp [toggleDisplayNotifyFromTray, h]
    · cases locked <;> simp [toggleDisplayNotifyFromTray, h]
  · rintro ⟨hl, hs⟩
    obtain ⟨d, s, f, rs, rf⟩ := settings
    subst hl hs
    cases d <;> cases s <;> cases f <;> cases rs <;> cases rf <;> rfl

theorem C7_toggle_guarded_by_lock_and_session_witness :
    (toggleDisplayNotifyFromTray true true false ⟨true, true, false, false, true⟩).settings
        = ⟨true, true, false, false, true⟩
    ∧ (toggleDisplayNotifyFromTray false true false
        ⟨true, true, false, false, true⟩).settings.desktopNotify = false :=
  ⟨((C7_toggle_guarded_by_lock_and_session true true false
      ⟨true, true, false, false, true⟩).1 (Or.inl rfl)).1,
   (C7_toggle_guarded_by_lock_and_session false true false
      ⟨true, true, false, false, true⟩).2 ⟨rfl, rfl⟩⟩

/-! ## Theorems: inline bot send data -/

/-- C5: `SendFile::getErrorOnSend` returns the first applicable restriction
error in the order media, stickers, gifs: the media error if it exists;
otherwise the stickers error if it exists and the document is a sticker;
otherwise the gifs error if it exists and the document is an animation that is
not a video message; otherwise the empty string. For a document that is not a
sticker the result does not depend on the stickers error, and for a video
message it does not depend on the gifs error. -/
theorem C5_getErrorOnSend_first_applicable
    (restrictionError : ChatRestriction → Option String) (document : DocumentData) :
    SendFile.getErrorOnSend restrictionError document
      = firstApplicableError restrictionError (SendFile.restrictionOrder document)
    ∧ (∀ e, restrictionError .SendMedia = some e →
        SendFile.getErrorOnSend restrictionError document = e)
    ∧ (restrictionError .SendMedia = none →
        ∀ e, restrictionError .SendStickers = some e → document.sticker.isSome = true →
        SendFile.getErrorOnSend restrictionError document = e)
    ∧ (restrictionError .SendMedia = none →
        (restrictionError .SendStickers = none ∨ document.sticker = none) →
        ∀ e, restrictionError .SendGifs = some e → document.isAnimation = true →
        document.isVideoMessage = false →
        SendFile.getErrorOnSend restrictionError document = e)
    ∧ (restrictionError .SendMedia = none →
        (restrictionError .SendStickers = none ∨ document.sticker = none) →
        (restrictionError .SendGifs = none ∨ document.isAnimation = false
          ∨ document.isVideoMessage = true) →
        SendFile.getErrorOnSend restrictionError document = "")
    ∧ (document.sticker = none →
        SendFile.getErrorOnSend restrictionError document
          = SendFile.getErrorOnSend
              (Function.update restrictionError .SendStickers none) document)
    ∧ (document.isVideoMessage = true →
        SendFile.getErrorOnSend restrictionError document
          = SendFile.getErrorOnSend
              (Function.update restrictionError .SendGifs none) document) := by
  obtain ⟨sticker, isAnimation, isVideoMessage⟩ := document
  refine ⟨?_, ?_, ?_, ?_, ?_, ?_, ?_⟩
  · cases hm : restrictionError .SendMedia <;> cases hs : restrictionError .SendStickers
      <;> cases hg : restrictionError .SendGifs <;> cases sticker <;> cases isAnimation
      <;> cases isVideoMessage
      <;> simp [SendFile.getErrorOnSend, firstApplicableError, SendFile.restrictionOrder,
        hm, hs, hg]
  · intro e hm
    simp [SendFile.getErrorOnSend, hm]
  · intro hm e hs hst
    cases sticker
    · cases hst
    · simp [SendFile.getErrorOnSend, hm, hs]
  · intro hm hs e hg ha hv
    simp only at ha hv
    subst ha hv
    rcases hs with hs | hs
    · simp [SendFile.getErrorOnSend, hm, hs, hg]
    · simp only at hs
      subst hs
      simp [SendFile.getErrorOnSend, hm, hg]
  · intro hm hs hg
    simp only at hs hg
    rcases hs with hs | hs <;> rcases hg with hg | hg | hg
      <;> simp [SendFile.getErrorOnSend, hm, hs, hg]
  · intro hst
    simp only at hst
    subst hst
    simp [SendFile.getErrorOnSend, Function.update]
  · intro hv
    simp only at hv
    subst hv
    simp [SendFile.getErrorOnSend, Function.update]

theorem C5_getErrorOnSend_first_applicable_witness :
    SendFile.getErrorOnSend sampleRestrictionError
        { sticker := none, isAnimation := true, isVideoMessage := false } = "no gifs"
    ∧ SendFile.getErrorOnSend sampleRestrictionError
        { sticker := some {}, isAnimation := true, isVideoMessage := false } = "no stickers" :=
  ⟨(C5_getErrorOnSend_first_applicable sampleRestrictionError
      { sticker := none, isAnimation := true, isVideoMessage := false }).2.2.2.1
      rfl (Or.inr rfl) "no gifs" rfl rfl rfl,
   (C5_getErrorOnSend_first_applicable sampleRestrictionError
      { sticker := some {}, isAnimation := true, isVideoMessage := false }).2.2.1
      rfl "no stickers" rfl rfl⟩

/-- C6: the message `SendDataCommon::addToHistory` adds carries the flags
passed in, joined with `f_entities` exactly when the sent message fields have
a non-empty entity list and with `f_reply_to` exactly when `replyToId` is not
zero: every bit passed in stays set, and every bit set in the result was
passed in or belongs to one of the two masks joined. The message has views 1
and forwards 0 and is added as `NewMessageType::Unread`, after the messages
already in the history. -/
theorem C6_addToHistory_flags (f_entities f_reply_to : Nat)
    (fields : SentMTPMessageFields) (history : History) (flags clientFlags : Nat)
    (msgId fromId mtpDate viaBotId replyToId : Int) (postAuthor : String)
    (markup : Nat) :
    ∃ m : MTPMessage,
      (SendDataCommon.addToHistory f_entities f_reply_to fields history flags
          clientFlags msgId fromId mtpDate viaBotId replyToId postAuthor markup).added
        = history.added ++ [{ message := m, clientFlags := clientFlags, type := .Unread }]
      ∧ m.flags = (flags ||| (if fields.entities ≠ [] then f_entities else 0))
          ||| (if replyToId ≠ 0 then f_reply_to else 0)
      ∧ (∀ i, flags.testBit i = true → m.flags.testBit i = true)
      ∧ (∀ i, m.flags.testBit i = true →
          flags.testBit i = true
          ∨ (fields.entities ≠ [] ∧ f_entities.testBit i = true)
          ∨ (replyToId ≠ 0 ∧ f_reply_to.testBit i = true))
      ∧ m.views = 1 ∧ m.forwards = 0 := by
  refine ⟨_, rfl, ?_, ?_, ?_, rfl, rfl⟩
  · by_cases he : fields.entities = [] <;> by_cases hr : replyToId = 0
      <;> simp [he, hr]
  · intro i hi
    by_cases he : fields.entities = [] <;> by_cases hr : replyToId = 0
      <;> simp [he, hr, hi, Nat.testBit_lor]
  · intro i hi
    by_cases he : fields.entities = [] <;> by_cases hr : replyToId = 0
      <;> simp [he, hr, Nat.testBit_lor] at hi ⊢ <;> tauto

/-! ## Theorems: the language-testing key code, continued -/

theorem suffix_snoc {l fed : List Int} (k : Int) (h : l <:+ fed) :
    l ++ [k] <:+ fed ++ [k] := by
  obtain ⟨t, rfl⟩ := h
  exact ⟨t, by simp⟩

theorem FeedLangTestingKey_matches (s key : Int) (fed : List Int)
    (h : codeStateMatches s fed) :
    codeStateMatches (FeedLangTestingKey s key).1 (fed ++ [key]) := by
  unfold codeStateMatches at h ⊢
  rcases h with h | ⟨h, hs⟩ | ⟨h, hs⟩ | ⟨h, hs⟩ <;> subst h
  · by_cases hk : key = Qt.Key_F7
    · subst hk
      exact Or.inr (Or.inl ⟨by decide, ⟨fed, rfl⟩⟩)
    · exact Or.inl (by simp [FeedLangTestingKey, hk])
  · by_cases hk : key = Qt.Key_F6
    · subst hk
      exact Or.inr (Or.inr (Or.inl ⟨by decide, suffix_snoc _ hs⟩))
    · exact Or.inl (by simp [FeedLangTestingKey, hk])
  · by_cases hk : key = Qt.Key_F7
    · subst hk
      exact Or.inr (Or.inr (Or.inr ⟨by decide, suffix_snoc _ hs⟩))
    · exact Or.inl (by simp [FeedLangTestingKey, hk])
  · by_cases hk : key = Qt.Key_F8
    · subst hk
      exact Or.inl (by decide)
    · exact Or.inl (by simp [FeedLangTestingKey, hk])

theorem FeedLangTestingKey_switch (s key : Int) (fed : List Int)
    (h : codeStateMatches s fed) (hsw : (FeedLangTestingKey s key).2 = true) :
    key = Qt.Key_F8 ∧ [Qt.Key_F7, Qt.Key_F6, Qt.Key_F7] <:+ fed := by
  unfold codeStateMatches at h
  rcases h with h | ⟨h, hs⟩ | ⟨h, hs⟩ | ⟨h, hs⟩ <;> subst h
  · exfalso
    by_cases hk : key = Qt.Key_F7
    · subst hk; revert hsw; decide
    · simp [FeedLangTestingKey, hk] at hsw
  · exfalso
    by_cases hk : key = Qt.Key_F6
    · subst hk; revert hsw; decide
    · simp [FeedLangTestingKey, hk] at hsw
  · exfalso
    by_cases hk : key = Qt.Key_F7
    · subst hk; revert hsw; decide
    · simp [FeedLangTestingKey, hk] at hsw
  · by_cases hk : key = Qt.Key_F8
    · exact ⟨hk, hs⟩
    · simp [FeedLangTestingKey, hk] at hsw

theorem feedKeys_matches (fed : List Int) :
    codeStateMatches (feedKeys initialCodeState fed).1 fed := by
  induction fed using List.reverseRecOn with
  | nil => exact Or.inl rfl
  | append_singleton earlier key ih =>
    rw [feedKeys_append]
    exact FeedLangTestingKey_matches _ key earlier ih

theorem lastCallSwitches_snoc (earlier : List Int) (key : Int) :
    lastCallSwitches (earlier ++ [key])
      = (FeedLangTestingKey (feedKeys initialCodeState earlier).1 key).2 := by
  unfold lastCallSwitches
  rw [feedKeys_append]
  simp [feedKeys]

/-- C18: in a run from the initial state, the call made with `key` after the
keys `earlier` switches to the test language only if `key` is F8 and the three
keys fed immediately before it are F7, F6, F7 in this order; and after the
call `codeState` is one of 0, 1, 2, 3. The same holds for the last call of the
run `earlier ++ [key]`, which is that call. -/
theorem C18_no_accidental_switch (earlier : List Int) (key : Int) :
    ((FeedLangTestingKey (feedKeys initialCodeState earlier).1 key).2 = true →
      key = Qt.Key_F8 ∧ [Qt.Key_F7, Qt.Key_F6, Qt.Key_F7] <:+ earlier)
    ∧ (lastCallSwitches (earlier ++ [key]) = true →
      key = Qt.Key_F8 ∧ [Qt.Key_F7, Qt.Key_F6, Qt.Key_F7] <:+ earlier)
    ∧ validCodeState (FeedLangTestingKey (feedKeys initialCodeState earlier).1 key).1
    ∧ validCodeState (feedKeys initialCodeState (earlier ++ [key])).1 := by
  refine ⟨?_, ?_, ?_, ?_⟩
  · exact FeedLangTestingKey_switch _ key earlier (feedKeys_matches earlier)
  · rw [lastCallSwitches_snoc]
    exact FeedLangTestingKey_switch _ key earlier (feedKeys_matches earlier)
  · exact FeedLangTestingKey_state _ key
  · exact feedKeys_state _ _ (Or.inl rfl)

theorem C18_no_accidental_switch_witness :
    lastCallSwitches ([Qt.Key_F6, Qt.Key_F7, Qt.Key_F6, Qt.Key_F7] ++ [Qt.Key_F8]) = true
    ∧ Qt.Key_F8 = Qt.Key_F8
    ∧ [Qt.Key_F7, Qt.Key_F6, Qt.Key_F7] <:+ [Qt.Key_F6, Qt.Key_F7, Qt.Key_F6, Qt.Key_F7] :=
  ⟨by decide,
   (C18_no_accidental_switch [Qt.Key_F6, Qt.Key_F7, Qt.Key_F6, Qt.Key_F7] Qt.Key_F8).2.1
    (by decide)⟩

/-! ## Theorems: the counter badge, continued -/

/-- C14 fails on the code for the requested size 16: the icon has side 16 and
the badge is painted at offset (8, 8), but the badge image is the layer image
for `-16 / 2 = -8`, whose side 8 is replaced by 32, so its side is 32 and not
8, and it reaches beyond the icon's bottom-right quadrant. -/
theorem C14_badge_side_at_size_16 :
    (iconWithCounter FontMetrics.sample false 16 5 0 1 false).iconSide = some 16
    ∧ (iconWithCounter FontMetrics.sample false 16 5 0 1 false).badgeOffset = some (8, 8)
    ∧ (iconWithCounter FontMetrics.sample false 16 5 0 1 false).badgeSide = some 32
    ∧ Int.tdiv (-16) 2 = -8
    ∧ (iconWithCounter FontMetrics.sample false (-8) 5 0 1 false)
      = .layer (iconWithCounterLayer FontMetrics.sample 32 5 0 1)
    ∧ (iconWithCounterLayer FontMetrics.sample 8 5 0 1).size = 32 := by
  decide

/-- For a non-small icon with a count other than zero and every non-negative
requested size other than 16, the icon has the normalised side 32 (requested
32) or 64 (any other), and the badge painted over it at offset
(side/2, side/2) is a square image of side side/2, which ends at the icon's
right and bottom edges. -/
theorem iconWithCounter_badge_half_for_sides_32_and_64 (fm : FontMetrics) (supportMode : Bool)
    (size count : Int) (bg fg : Color) (hsize : 0 ≤ size) (h16 : size ≠ 16)
    (hcount : count ≠ 0) :
    ∃ side : Int, side = (if size = 32 then 32 else 64)
      ∧ (iconWithCounter fm supportMode size count bg fg false).iconSide = some side
      ∧ (iconWithCounter fm supportMode size count bg fg false).badgeOffset
        = some (Int.tdiv side 2, Int.tdiv side 2)
      ∧ (iconWithCounter fm supportMode size count bg fg false).badgeSide
        = some (Int.tdiv side 2)
      ∧ Int.tdiv side 2 + Int.tdiv side 2 = side := by
  have hneg : ¬ size < 0 := not_lt.mpr hsize
  by_cases h32 : size = 32
  · subst h32
    refine ⟨32, by simp, ?_, ?_, ?_, by decide⟩
    all_goals
      simp [iconWithCounter, hcount, CounterIcon.iconSide, CounterIcon.badgeOffset,
        CounterIcon.badgeSide, iconWithCounterLayer]
    all_goals decide
  · refine ⟨64, by simp [h32], ?_, ?_, ?_, by decide⟩
    all_goals
      simp [iconWithCounter, hneg, h16, h32, hcount, CounterIcon.iconSide,
        CounterIcon.badgeOffset, CounterIcon.badgeSide, iconWithCounterLayer]
    all_goals decide

theorem iconWithCounter_badge_half_for_sides_32_and_64_witness :
    ∃ side : Int, side = (if (50 : Int) = 32 then 32 else 64)
      ∧ (iconWithCounter FontMetrics.sample false 50 5 0 1 false).iconSide = some side
      ∧ (iconWithCounter FontMetrics.sample false 50 5 0 1 false).badgeOffset
        = some (Int.tdiv side 2, Int.tdiv side 2)
      ∧ (iconWithCounter FontMetrics.sample false 50 5 0 1 false).badgeSide
        = some (Int.tdiv side 2)
      ∧ Int.tdiv side 2 + Int.tdiv side 2 = side :=
  iconWithCounter_badge_half_for_sides_32_and_64 FontMetrics.sample false 50 5 0 1
    (by decide) (by decide) (by decide)


/-! ## Theorems: focus and geometry -/

/-- C17: `setInnerFocus` gives the focus to the first widget that qualifies in
the order theme warning, layer stack (when it can take the focus), passcode
lock, main, intro, and to no other; it changes nothing when none qualifies.
With no theme warning and no layer stack that can take the focus, an existing
passcode lock receives the focus and main and intro receive no call. -/
theorem C17_setInnerFocus_priority (env : Env) (w : MainWindow) :
    w.setInnerFocus env = setInnerFocusDescribed env w
    ∧ (w.setInnerFocus env = w ∨ ∃ target, w.setInnerFocus env = giveFocus target w)
    ∧ (focusTarget env w = none → w.setInnerFocus env = w)
    ∧ (w._testingThemeWarning.isSome = false →
        (w._layer.isSome && env.layerCanSetFocus) = false →
        w._passcodeLock.isSome = true →
        w.setInnerFocus env
          = { w with _passcodeLock := MainWindow.call w._passcodeLock .setInnerFocus }
        ∧ (w.setInnerFocus env)._main = w._main
        ∧ (w.setInnerFocus env)._intro = w._intro) := by
  have hspec : w.setInnerFocus env = setInnerFocusDescribed env w := by
    unfold MainWindow.setInnerFocus setInnerFocusDescribed focusTarget focusCandidates
    cases ht : w._testingThemeWarning.isSome
      <;> cases hl : (w._layer.isSome && env.layerCanSetFocus)
      <;> cases hp : w._passcodeLock.isSome
      <;> cases hm : w._main.isSome
      <;> cases hi : w._intro.isSome
      <;> simp [List.find?, giveFocus]
  refine ⟨hspec, ?_, ?_, ?_⟩
  · rw [hspec]
    unfold setInnerFocusDescribed
    cases focusTarget env w with
    | none => exact Or.inl rfl
    | some target => exact Or.inr ⟨target, rfl⟩
  · intro hnone
    rw [hspec]
    simp [setInnerFocusDescribed, hnone]
  · intro ht hl hp
    have h : w.setInnerFocus env
        = { w with _passcodeLock := MainWindow.call w._passcodeLock .setInnerFocus } := by
      unfold MainWindow.setInnerFocus
      simp [ht, hl, hp]
    exact ⟨h, by rw [h], by rw [h]⟩

theorem C17_setInnerFocus_priority_witness :
    ({ MainWindow.onlyPasscodeLock with _main := some [], _layer := some [] }).setInnerFocus
        Env.loggedIn
      = { MainWindow.onlyPasscodeLock with
          _main := some [], _layer := some [], _passcodeLock := some [.setInnerFocus] } :=
  ((C17_setInnerFocus_priority Env.loggedIn
    { MainWindow.onlyPasscodeLock with _main := some [], _layer := some [] }).2.2.2
    (by decide) (by decide) (by decide)).1

/-- C15: `updateControlsGeometry` gives the main widget the rectangle
`(body.x + skip, body.y, body.width - skip, body.height)`, where `skip` is the
session controller's `filtersWidth()` when a session controller exists and 0
otherwise, followed by `checkMainSectionToLayer()`; the left offset plus the
width is the body width, so the right edges coincide. The passcode lock,
intro, layer stack, media preview and theme warning each get the body
rectangle. -/
theorem C15_updateControlsGeometry_rectangles (env : Env) (w : MainWindow) :
    (w.updateControlsGeometry env)._main
      = w._main.map (fun calls => calls
          ++ [.setGeometry
                { x := env.body.x + filtersSkip env
                  y := env.body.y
                  width := env.body.width - filtersSkip env
                  height := env.body.height },
              .checkMainSectionToLayer])
    ∧ filtersSkip env + (mainGeometryDescribed env).width = env.body.width
    ∧ (mainGeometryDescribed env).x + (mainGeometryDescribed env).width
      = env.body.x + env.body.width
    ∧ (w.updateControlsGeometry env)._passcodeLock
      = w._passcodeLock.map (fun calls => calls ++ [.setGeometry env.body])
    ∧ (w.updateControlsGeometry env)._intro
      = w._intro.map (fun calls => calls ++ [.setGeometry env.body])
    ∧ (w.updateControlsGeometry env)._layer
      = w._layer.map (fun calls => calls ++ [.setGeometry env.body])
    ∧ (w.updateControlsGeometry env)._mediaPreview
      = w._mediaPreview.map (fun calls => calls ++ [.setGeometry env.body])
    ∧ (w.updateControlsGeometry env)._testingThemeWarning
      = w._testingThemeWarning.map (fun calls => calls ++ [.setGeometry env.body]) := by
  refine ⟨?_, ?_, ?_, ?_, ?_, ?_, ?_, ?_⟩
  · unfold MainWindow.updateControlsGeometry filtersSkip
    cases hm : w._main <;> cases hs : env.sessionController
    · simp [MainWindow.call, MainWindow.emit, hm]
    · simp [MainWindow.call, MainWindow.emit, hm]
    · simp [MainWindow.call, MainWindow.emit, hm]
    · rename_i calls session
      by_cases hz : session.filtersWidth = 0
      · simp [MainWindow.call, MainWindow.emit, hm, hz]
      · simp [MainWindow.call, MainWindow.emit, hm, hz]
  · simp only [mainGeometryDescribed]; omega
  · simp only [mainGeometryDescribed]; omega
  · simp [MainWindow.updateControlsGeometry, MainWindow.call, MainWindow.emit]
  · simp [MainWindow.updateControlsGeometry, MainWindow.call, MainWindow.emit]
  · simp [MainWindow.updateControlsGeometry, MainWindow.call, MainWindow.emit]
  · simp [MainWindow.updateControlsGeometry, MainWindow.call, MainWindow.emit]
  · simp [MainWindow.updateControlsGeometry, MainWindow.call, MainWindow.emit]

/-! ## Theorems: the tray toggle, continued -/

/-- C11: when desktop notifications start enabled, two consecutive calls of
`toggleDisplayNotifyFromTray`, both with the controller unlocked and a session
present, leave `desktopNotify`, `soundNotify` and `flashBounceNotify` at their
initial values, whatever the two remembered flags were. -/
theorem C11_toggle_twice_restores_enabled (isActive isActive' : Bool)
    (settings : NotifySettings) (h : settings.desktopNotify = true) :
    let once := toggleDisplayNotifyFromTray false true isActive settings
    let twice := toggleDisplayNotifyFromTray false true isActive' once.settings
    twice.settings.desktopNotify = settings.desktopNotify
    ∧ twice.settings.soundNotify = settings.soundNotify
    ∧ twice.settings.flashBounceNotify = settings.flashBounceNotify := by
  obtain ⟨d, s, f, rs, rf⟩ := settings
  simp only at h
  subst h
  cases s <;> cases f <;> cases rs <;> cases rf <;> exact ⟨rfl, rfl, rfl⟩

theorem C11_toggle_twice_restores_enabled_witness :
    (toggleDisplayNotifyFromTray false true true
      (toggleDisplayNotifyFromTray false true true
        ⟨true, true, false, false, true⟩).settings).settings.desktopNotify = true
    ∧ (toggleDisplayNotifyFromTray false true true
      (toggleDisplayNotifyFromTray false true true
        ⟨true, true, false, false, true⟩).settings).settings.soundNotify = true
    ∧ (toggleDisplayNotifyFromTray false true true
      (toggleDisplayNotifyFromTray false true true
        ⟨true, true, false, false, true⟩).settings).settings.flashBounceNotify = false :=
  C11_toggle_twice_restores_enabled true true ⟨true, true, false, false, true⟩ rfl

/-- C12: when `toggleDisplayNotifyFromTray` is performed (controller unlocked,
session present), the settings are saved, `notifySettingsChanged` is called
with `DesktopEnabled`, with `SoundEnabled` exactly when `soundNotify` differs
after the call from before it, and with `FlashBounceEnabled` exactly when
`flashBounceNotify` differs; each at most once, in this order. -/
theorem C12_toggle_notifies_what_changed (isActive : Bool) (settings : NotifySettings) :
    let outcome := toggleDisplayNotifyFromTray false true isActive settings
    ChangeType.DesktopEnabled ∈ outcome.notified
    ∧ (ChangeType.SoundEnabled ∈ outcome.notified
        ↔ outcome.settings.soundNotify ≠ settings.soundNotify)
    ∧ (ChangeType.FlashBounceEnabled ∈ outcome.notified
        ↔ outcome.settings.flashBounceNotify ≠ settings.flashBounceNotify)
    ∧ outcome.saved = true
    ∧ outcome.notified
      = [ChangeType.DesktopEnabled]
        ++ (if outcome.settings.soundNotify ≠ settings.soundNotify then
              [ChangeType.SoundEnabled] else [])
        ++ (if outcome.settings.flashBounceNotify ≠ settings.flashBounceNotify then
              [ChangeType.FlashBounceEnabled] else []) := by
  obtain ⟨d, s, f, rs, rf⟩ := settings
  cases isActive <;> cases d <;> cases s <;> cases f <;> cases rs <;> cases rf <;> decide

/-! ## Theorems: inline bot send data, continued -/

/-- C16: `SendGeo::getSentMessageFields` produces `messageMediaGeoLive` exactly
when a period is present and `messageMediaGeo` of the location otherwise. In
the live case the flags are `f_heading` when a heading is present joined with
`f_proximity_notification_radius` when a radius is present, an absent heading
or radius is encoded as 0 and the period is copied; for two distinct flag
bits, each bit is set exactly when its value is present. Text and entities
are empty in both cases. -/
theorem C16_getSentMessageFields_geo (f_heading f_proximity_notification_radius : Nat)
    (self : SendGeo) :
    (∀ period, self._period = some period →
      SendGeo.getSentMessageFields f_heading f_proximity_notification_radius self
        = { text := ""
            entities := []
            media := .messageMediaGeoLive
              ((if self._heading.isSome then f_heading else 0)
                ||| (if self._proximityNotificationRadius.isSome then
                      f_proximity_notification_radius else 0))
              self._location
              (self._heading.getD 0)
              period
              (self._proximityNotificationRadius.getD 0) })
    ∧ (self._period = none →
      SendGeo.getSentMessageFields f_heading f_proximity_notification_radius self
        = { text := "", entities := [], media := .messageMediaGeo self._location })
    ∧ ((∃ flags geo heading period radius,
          (SendGeo.getSentMessageFields f_heading f_proximity_notification_radius self).media
            = .messageMediaGeoLive flags geo heading period radius)
        ↔ self._period.isSome = true)
    ∧ (∀ i j : Nat, i ≠ j →
        ∀ flags geo heading period radius,
        (SendGeo.getSentMessageFields (2 ^ i) (2 ^ j) self).media
            = .messageMediaGeoLive flags geo heading period radius →
        (flags.testBit i = true ↔ self._heading.isSome = true)
        ∧ (flags.testBit j = true ↔ self._proximityNotificationRadius.isSome = true)
        ∧ (self._heading = none → heading = 0)
        ∧ (self._proximityNotificationRadius = none → radius = 0)
        ∧ (∀ h, self._heading = some h → heading = h)
        ∧ (∀ r, self._proximityNotificationRadius = some r → radius = r)
        ∧ self._period = some period) := by
  obtain ⟨location, period, heading, radius⟩ := self
  refine ⟨?_, ?_, ?_, ?_⟩
  · intro p hp
    simp only at hp
    subst hp
    rfl
  · intro hp
    simp only at hp
    subst hp
    rfl
  · cases period <;> simp [SendGeo.getSentMessageFields]
  · intro i j hij flags geo h p r hmedia
    have hji : j ≠ i := fun e => hij e.symm
    cases period with
    | none => simp [SendGeo.getSentMessageFields] at hmedia
    | some p0 =>
      simp only [SendGeo.getSentMessageFields, MTPMessageMedia.messageMediaGeoLive.injEq]
        at hmedia
      obtain ⟨hflags, -, hh, hp, hr⟩ := hmedia
      subst hflags hh hp hr
      cases heading <;> cases radius <;>
        simp [Nat.testBit_lor, Nat.testBit_two_pow, hij, hji]
